import Mathlib

/-!
Verification development for `thermo/phases.py` (the single-phase property
engine).  Python floats are modelled as real numbers, Python lists as Lean
lists, fallible calls as `Except`-valued functions, and per-instance
memoisation caches as `Option`-valued record fields that start out `none`.
All definitions are transcribed from the source; the few helpers that live in
the external `fluids.numerics` package (outside this repository) are modelled
from the spec and from the reference loops kept in comments inside
`phases.py`, and carry a doc comment saying so.
-/

namespace Thermo

/-- The Python runtime errors raised on the code paths modelled here. -/
inductive PyErr where
  | valueError
  | attributeError
  | nameError
  deriving DecidableEq, Repr

/-- `fluids.constants.R`, the molar gas constant used throughout `phases.py`. -/
def R : ℝ := 8.31446261815324

/-- `Phase.T_REF_IG`, the ideal-gas reference temperature (298.15 K). -/
def T_REF_IG : ℝ := 298.15

/-- `Phase.T_REF_IG_INV = 1.0/T_REF_IG`. -/
noncomputable def T_REF_IG_INV : ℝ := 1.0 / T_REF_IG

/-- `Phase.P_REF_IG`, the ideal-gas reference pressure (101325 Pa). -/
def P_REF_IG : ℝ := 101325

/-- `Phase.P_REF_IG_INV = 1.0/P_REF_IG`. -/
noncomputable def P_REF_IG_INV : ℝ := 1.0 / P_REF_IG

/-- `fluids.numerics.horner`: Horner evaluation of a coefficient list,
high-order coefficient first.  Its loop is written out verbatim in several
places of `phases.py` (e.g. `Phase._Cp_pure_fast`):
`Cp = 0.0; for c in coeffs: Cp = Cp*T + c`. -/
def horner (coeffs : List ℝ) (x : ℝ) : ℝ :=
  coeffs.foldl (fun tot c => tot * x + c) 0

/-- `math.log` as re-exported by `thermo.utils`: raises `ValueError` on a
non-positive argument, otherwise returns the natural logarithm. -/
noncomputable def pylog (x : ℝ) : Except PyErr ℝ :=
  if 0 < x then .ok (Real.log x) else .error .valueError

/-- A Python list comprehension over a fallible function: elements are
evaluated left to right and the first exception aborts the whole list. -/
def tryMap (f : α → Except ε β) : List α → Except ε (List β)
  | [] => .ok []
  | a :: as => do
    let b ← f a
    let bs ← tryMap f as
    pure (b :: bs)

/-- `true` exactly when the `Except` value is a success. -/
def exceptOk (e : Except ε α) : Bool :=
  match e with
  | .ok _ => true
  | .error _ => false

namespace Phase

/-- `Phase.log_zs` (phases.py lines 192-206): first tries
`[log(zi) for zi in self.zs]`; if that raises `ValueError` it rebuilds the
list element by element, substituting `-690.7755278982137` (= `log(1e-300)`)
for every entry whose `log` raises.  The `self._log_zs` memoisation guard is
modelled by the caches of the snapshot records below, which start `none`. -/
noncomputable def log_zs (zs : List ℝ) : List ℝ :=
  match tryMap pylog zs with
  | .ok r => r
  | .error _ =>
    zs.map fun zi =>
      match pylog zi with
      | .ok v => v
      | .error _ => -690.7755278982137

/-- `Phase.V_ideal_gas` (phases.py lines 820-821): `R*self.T/self.P`. -/
noncomputable def V_ideal_gas (T P : ℝ) : ℝ := R * T / P

/-- The names of the methods defined by `class Phase` in phases.py (every
`def` statement of the class body, in source order).  Python resolves an
attribute on an `IdealGas` instance through `IdealGas` and then `Phase`;
a name in neither list raises `AttributeError`. -/
def methodNames : List String :=
  ["fugacities", "dfugacities_dT", "phis", "dphis_dT", "dphis_dP",
   "dfugacities_dP", "log_zs", "G", "U", "A", "dH_dns", "dS_dns", "dG_dT",
   "dG_dP", "dU_dT", "dU_dP", "dA_dT", "dA_dP", "G_dep", "V_dep", "U_dep",
   "A_dep", "H_reactive", "S_reactive", "G_reactive", "U_reactive",
   "A_reactive", "H_formation_ideal_gas", "S_formation_ideal_gas",
   "G_formation_ideal_gas", "U_formation_ideal_gas", "A_formation_ideal_gas",
   "Cv", "chemical_potential", "activities", "gammas", "Cp_Cv_ratio", "Z",
   "rho", "dT_dP", "dV_dT", "dV_dP", "dT_dV", "d2V_dP2", "d2T_dP2",
   "d2T_dV2", "d2V_dT2", "d2V_dPdT", "d2T_dPdV", "d2V_dTdP", "d2P_dVdT",
   "d2T_dVdP", "PIP", "kappa", "beta", "dbeta_dT", "dbeta_dP",
   "Joule_Thomson", "speed_of_sound", "dZ_dT", "dZ_dP", "dP_drho",
   "drho_dP", "d2P_drho2", "d2rho_dP2", "dT_drho", "d2T_drho2", "drho_dT",
   "d2rho_dT2", "d2P_dTdrho", "d2T_dPdrho", "d2rho_dPdT", "setup_Cpigs",
   "_Cp_pure_fast", "_Cp_integrals_pure_fast",
   "_Cp_integrals_over_T_pure_fast", "Cpigs_pure", "Cpig_integrals_pure",
   "Cpig_integrals_over_T_pure", "Cpls_pure", "Cpl_integrals_pure",
   "Cpl_integrals_over_T_pure", "V_ideal_gas", "H_ideal_gas", "S_ideal_gas",
   "Cp_ideal_gas", "Cv_ideal_gas", "Cv_dep", "Cp_Cv_ratio_ideal_gas",
   "G_ideal_gas", "U_ideal_gas", "A_ideal_gas", "mechanical_critical_point",
   "Tmc", "Pmc", "Vmc", "Zmc", "MW", "MW_inv", "speed_of_sound_mass",
   "rho_mass", "H_mass", "S_mass", "U_mass", "A_mass", "G_mass", "Cp_mass",
   "Cv_mass"]

end Phase

namespace IdealGas

/-- The names of the methods defined by `class IdealGas` in phases.py
(lines 1067-1110). -/
def methodNames : List String :=
  ["__init__", "fugacities", "lnphis", "dlnphis_dT", "dlnphis_dP",
   "to_TP_zs"]

end IdealGas

/-- Entrywise description of `Phase.log_zs`: positive entries map to their
logarithm, non-positive entries to the floor constant `log(1e-300)`. -/
lemma log_zs_eq_map (zs : List ℝ) :
    Phase.log_zs zs =
      zs.map fun zi =>
        if 0 < zi then Real.log zi else -690.7755278982137 := by
  have hok : ∀ (l : List ℝ) (r : List ℝ), tryMap pylog l = .ok r →
      r = l.map fun zi =>
        if 0 < zi then Real.log zi else -690.7755278982137 := by
    intro l
    induction l with
    | nil => intro r hr; simpa [tryMap] using hr.symm
    | cons a as ih =>
      intro r hr
      by_cases ha : 0 < a
      · simp only [tryMap, pylog, if_pos ha, bind, Except.bind] at hr
        cases hrec : tryMap pylog as with
        | ok bs =>
          rw [hrec] at hr
          simp only [pure, Except.pure, Except.ok.injEq] at hr
          subst hr
          simp [List.map, if_pos ha, ih bs hrec]
        | error e => rw [hrec] at hr; exact absurd hr (by simp)
      · simp only [tryMap, pylog, if_neg ha, bind, Except.bind] at hr
        exact absurd hr (by simp)
  unfold Phase.log_zs
  cases htr : tryMap pylog zs with
  | ok r => exact hok zs r htr
  | error e =>
    apply List.map_congr_left
    intro zi _
    by_cases hz : 0 < zi <;> simp [pylog, hz]

/-- `getD` through a `map`, for an index in range. -/
lemma getD_map_of_lt (f : α → β) (l : List α) (i : ℕ) (h : i < l.length)
    (d : β) (d' : α) : (l.map f).getD i d = f (l.getD i d') := by
  rw [List.getD_eq_getElem?_getD, List.getD_eq_getElem?_getD,
    List.getElem?_map, List.getElem?_eq_getElem h]
  simp

/-- Claim C7: `Phase.log_zs` never raises; every entry with `zs_i > 0` equals
`log(zs_i)` and every entry with `zs_i <= 0` is replaced by the floor
constant `-690.7755278982137` (= `log(1e-300)`). -/
theorem claimC7_log_zs_floor (zs : List ℝ) (i : ℕ) (hi : i < zs.length) :
    (Phase.log_zs zs).length = zs.length ∧
    (0 < zs.getD i 0 →
      (Phase.log_zs zs).getD i 0 = Real.log (zs.getD i 0)) ∧
    (zs.getD i 0 ≤ 0 →
      (Phase.log_zs zs).getD i 0 = -690.7755278982137) := by
  rw [log_zs_eq_map]
  refine ⟨by simp, ?_, ?_⟩
  · intro hpos
    rw [getD_map_of_lt _ _ _ hi _ 0, if_pos hpos]
  · intro hnp
    rw [getD_map_of_lt _ _ _ hi _ 0, if_neg (not_lt.mpr hnp)]

/-- Witness for C7 at the concrete composition `zs = [2, 0]`. -/
theorem claimC7_log_zs_floor_witness :
    (Phase.log_zs [(2 : ℝ), 0]).getD 0 0 = Real.log 2 ∧
    (Phase.log_zs [(2 : ℝ), 0]).getD 1 0 = -690.7755278982137 := by
  refine ⟨?_, ?_⟩
  · have h := (claimC7_log_zs_floor [(2 : ℝ), 0] 0 (by norm_num)).2.1
    simpa using h (by norm_num)
  · have h := (claimC7_log_zs_floor [(2 : ℝ), 0] 1 (by norm_num)).2.2
    simpa using h (by norm_num)

/-- Claim C4 (code bug): neither `class IdealGas` nor its base `class Phase`
defines a method `V`, so `IdealGas(...).V()` raises `AttributeError`; the
method that does return `R*T/P` is `Phase.V_ideal_gas`, shown here at the
spec scenario `T = 350 K`, `P = 200000 Pa`. -/
theorem claimC4_idealgas_V_missing :
    "V" ∉ IdealGas.methodNames ∧ "V" ∉ Phase.methodNames ∧
    Phase.V_ideal_gas 350 200000 = R * 350 / 200000 := by
  refine ⟨by decide, by decide, rfl⟩

/-! ### IdealGas snapshots (phases.py lines 1067-1110) -/

/-- An `IdealGas` snapshot as produced by `IdealGas.to_TP_zs`: the state
triple plus `N` (set to `len(zs)` by `to_TP_zs`).  The heat-capacity
collaborators and formation properties are irrelevant to the fugacity-level
accessors modelled here and are omitted. -/
structure IdealGasState where
  T : ℝ
  P : ℝ
  zs : List ℝ
  N : ℕ

namespace IdealGas

/-- `IdealGas.lnphis`: `[0.0]*self.N`. -/
def lnphis (s : IdealGasState) : List ℝ := List.replicate s.N 0

/-- `Phase.phis` as inherited by `IdealGas`: `[exp(i) for i in self.lnphis()]`. -/
noncomputable def phis (s : IdealGasState) : List ℝ :=
  (lnphis s).map Real.exp

/-- `IdealGas.to_TP_zs` (phases.py lines 1098-1110): fresh snapshot with
`N = len(zs)`, sharing the correlation references. -/
def to_TP_zs (s : IdealGasState) (T P : ℝ) (zs : List ℝ) : IdealGasState :=
  { T := T, P := P, zs := zs, N := zs.length }

/-- `Phase.gammas` (phases.py lines 352-366) as inherited by `IdealGas`:
mixture fugacity coefficients divided by the fugacity coefficient of a
synthetic one-component sub-evaluation (`zeros = [0.0]*N; zeros[i] = 1.0`)
at the same `(T, P)`. -/
noncomputable def gammas (s : IdealGasState) : List ℝ :=
  let phis0 := phis s
  let phis_pure := (List.range s.N).map fun i =>
    (phis (to_TP_zs s s.T s.P ((List.replicate s.N (0 : ℝ)).set i 1))).getD i 0
  (List.range s.N).map fun i => phis0.getD i 0 / phis_pure.getD i 0

end IdealGas

/-- `getD` of a `replicate`, for an index in range. -/
lemma getD_replicate_of_lt (n : ℕ) (a : α) (i : ℕ) (h : i < n) (d : α) :
    (List.replicate n a).getD i d = a := by
  rw [List.getD_eq_getElem?_getD, List.getElem?_replicate, if_pos h]
  rfl

/-- Claim C8: for every `IdealGas` snapshot, `phis()` is all ones, every
pure-component sub-evaluation fugacity coefficient is `exp(0) = 1`, and
`gammas()` returns a list of `N` ones. -/
theorem claimC8_idealgas_gammas_one (s : IdealGasState) :
    IdealGas.phis s = List.replicate s.N 1 ∧
    (∀ i, i < s.N →
      (IdealGas.phis
        (IdealGas.to_TP_zs s s.T s.P
          ((List.replicate s.N (0 : ℝ)).set i 1))).getD i 0 = 1) ∧
    IdealGas.gammas s = List.replicate s.N 1 := by
  have hphis : ∀ t : IdealGasState, IdealGas.phis t = List.replicate t.N 1 := by
    intro t
    simp [IdealGas.phis, IdealGas.lnphis, List.map_replicate]
  have hpure : ∀ i, i < s.N →
      (IdealGas.phis
        (IdealGas.to_TP_zs s s.T s.P
          ((List.replicate s.N (0 : ℝ)).set i 1))).getD i 0 = 1 := by
    intro i hi
    rw [hphis]
    have hN : (IdealGas.to_TP_zs s s.T s.P
        ((List.replicate s.N (0 : ℝ)).set i 1)).N = s.N := by
      simp [IdealGas.to_TP_zs]
    rw [hN]
    exact getD_replicate_of_lt _ _ _ hi _
  refine ⟨hphis s, hpure, ?_⟩
  rw [List.eq_replicate_iff]
  constructor
  · simp [IdealGas.gammas]
  · intro b hb
    simp only [IdealGas.gammas, List.mem_map, List.mem_range] at hb
    obtain ⟨i, hi, hbi⟩ := hb
    rw [← hbi]
    have h1 : (IdealGas.phis s).getD i 0 = 1 := by
      rw [hphis s]; exact getD_replicate_of_lt _ _ _ hi _
    have h2 : (((List.range s.N).map fun j =>
        (IdealGas.phis (IdealGas.to_TP_zs s s.T s.P
          ((List.replicate s.N (0 : ℝ)).set j 1))).getD j 0)).getD i 0 = 1 := by
      rw [getD_map_of_lt _ _ _ (by simpa using hi) _ 0]
      have : (List.range s.N).getD i 0 = i := by
        rw [List.getD_eq_getElem?_getD, List.getElem?_range hi]; rfl
      rw [this]
      exact hpure i hi
    simp only [h1, h2]
    norm_num

/-- Witness for C8 at a concrete two-component snapshot. -/
theorem claimC8_idealgas_gammas_one_witness :
    IdealGas.gammas ⟨350, 200000, [0.4, 0.6], 2⟩ = [1, 1] ∧
    (IdealGas.phis
      (IdealGas.to_TP_zs ⟨350, 200000, [0.4, 0.6], 2⟩ 350 200000
        ((List.replicate 2 (0 : ℝ)).set 0 1))).getD 0 0 = 1 := by
  constructor
  · have h := (claimC8_idealgas_gammas_one ⟨350, 200000, [0.4, 0.6], 2⟩).2.2
    simpa [List.replicate] using h
  · have h := (claimC8_idealgas_gammas_one ⟨350, 200000, [0.4, 0.6], 2⟩).2.1
    simpa using h 0 (by norm_num)

/-! ### EOSGas (phases.py lines 1112-1448)

The cubic equation-of-state mixture object is an external collaborator
(spec section 6).  At a given state it may expose a gas root, a liquid root,
or both; every `_g`/`_l` branch attribute (`V_g`, `H_dep_g`, `Z_g`, ...)
exists exactly when the corresponding root exists, and accessing a missing
one raises `AttributeError`.  `EOSGas.dlnphis_dT('g')` likewise fails
exactly when the gas root is missing (the source catches with a bare
`except:`, same outcome). -/

/-- The per-root quantities exposed by the EOS mixture object. -/
structure EOSBranchResults where
  Z : ℝ
  V : ℝ
  dP_dT : ℝ
  dP_dV : ℝ
  d2P_dT2 : ℝ
  d2P_dV2 : ℝ
  d2P_dTdV : ℝ
  H_dep : ℝ
  S_dep : ℝ
  Cp_dep : ℝ
  dlnphis_dT : List ℝ
  dlnphis_dP : List ℝ

/-- The EOS mixture object: state, optional gas/liquid roots, and the
fugacity-coefficient routine. -/
structure EOSMixState where
  T : ℝ
  P : ℝ
  gas : Option EOSBranchResults
  liq : Option EOSBranchResults
  fugacity_coefficients : ℝ → List ℝ → List ℝ

/-- The `try: ..._g except AttributeError: ..._l` pattern used by every
`EOSGas` primitive accessor: return the gas-branch value when present,
otherwise the liquid-branch value, otherwise the (uncaught) fallback
`AttributeError`. -/
def attrFallback (g l : Option α) : Except PyErr α :=
  match g with
  | some v => .ok v
  | none =>
    match l with
    | some v => .ok v
    | none => .error .attributeError

namespace EOSGas

/-- `EOSGas` snapshot.  `T`, `P` and `eos_mix` are `Option`s because
`to_zs_TPV` can return a snapshot with `P = None` and no `eos_mix`
(see claim C3).  The three solver fields stand for
`eos_mix.to_TP_zs_fast` / `eos_mix.to_TV_zs` / the `eos_class`
constructor, external collaborators that produce a solved mixture object. -/
structure State where
  T : Option ℝ
  P : Option ℝ
  zs : List ℝ
  N : ℕ
  eos_mix : Option EOSMixState
  solveTP : ℝ → ℝ → List ℝ → EOSMixState
  solveTV : ℝ → ℝ → List ℝ → EOSMixState
  solvePV : ℝ → ℝ → List ℝ → EOSMixState
  HeatCapacityGases : List (ℝ → ℝ)
  Cpgs_locked : Bool
  Hfs : Option (List ℝ)
  Gfs : Option (List ℝ)
  Sfs : Option (List ℝ)
  -- memoisation caches (`self._H`, `self._S`), absent on a fresh snapshot
  _H : Option ℝ := none
  _S : Option ℝ := none

/-- Lift a per-branch attribute access through `self.eos_mix`: if the
snapshot has no `eos_mix` at all, both attribute lookups in the
`try`/`except` raise and the second one propagates. -/
def mixAttr (s : State) (f : EOSMixState → Option α) (g : EOSMixState → Option α) :
    Except PyErr α :=
  match s.eos_mix with
  | none => .error .attributeError
  | some em => attrFallback (f em) (g em)

/-- `EOSGas.V`: `eos_mix.V_g`, falling back to `eos_mix.V_l`. -/
def V (s : State) : Except PyErr ℝ :=
  mixAttr s (fun em => em.gas.map fun b => b.V) (fun em => em.liq.map fun b => b.V)

/-- `EOSGas.dP_dT`. -/
def dP_dT (s : State) : Except PyErr ℝ :=
  mixAttr s (fun em => em.gas.map fun b => b.dP_dT) (fun em => em.liq.map fun b => b.dP_dT)

/-- `EOSGas.dP_dV`. -/
def dP_dV (s : State) : Except PyErr ℝ :=
  mixAttr s (fun em => em.gas.map fun b => b.dP_dV) (fun em => em.liq.map fun b => b.dP_dV)

/-- `EOSGas.d2P_dT2`. -/
def d2P_dT2 (s : State) : Except PyErr ℝ :=
  mixAttr s (fun em => em.gas.map fun b => b.d2P_dT2) (fun em => em.liq.map fun b => b.d2P_dT2)

/-- `EOSGas.d2P_dV2`. -/
def d2P_dV2 (s : State) : Except PyErr ℝ :=
  mixAttr s (fun em => em.gas.map fun b => b.d2P_dV2) (fun em => em.liq.map fun b => b.d2P_dV2)

/-- `EOSGas.d2P_dTdV`. -/
def d2P_dTdV (s : State) : Except PyErr ℝ :=
  mixAttr s (fun em => em.gas.map fun b => b.d2P_dTdV) (fun em => em.liq.map fun b => b.d2P_dTdV)

/-- `EOSGas.H_dep`. -/
def H_dep (s : State) : Except PyErr ℝ :=
  mixAttr s (fun em => em.gas.map fun b => b.H_dep) (fun em => em.liq.map fun b => b.H_dep)

/-- `EOSGas.S_dep`. -/
def S_dep (s : State) : Except PyErr ℝ :=
  mixAttr s (fun em => em.gas.map fun b => b.S_dep) (fun em => em.liq.map fun b => b.S_dep)

/-- `EOSGas.Cp_dep`. -/
def Cp_dep (s : State) : Except PyErr ℝ :=
  mixAttr s (fun em => em.gas.map fun b => b.Cp_dep) (fun em => em.liq.map fun b => b.Cp_dep)

/-- `EOSGas.lnphis` (phases.py lines 1227-1231):
`eos_mix.fugacity_coefficients(eos_mix.Z_g, self.zs)`, falling back to
`Z_l` when the gas root is missing. -/
def lnphis (s : State) : Except PyErr (List ℝ) :=
  mixAttr s
    (fun em => em.gas.map fun b => em.fugacity_coefficients b.Z s.zs)
    (fun em => em.liq.map fun b => em.fugacity_coefficients b.Z s.zs)

/-- `EOSGas.dlnphis_dT`. -/
def dlnphis_dT (s : State) : Except PyErr (List ℝ) :=
  mixAttr s (fun em => em.gas.map fun b => b.dlnphis_dT) (fun em => em.liq.map fun b => b.dlnphis_dT)

/-- `EOSGas.dlnphis_dP`. -/
def dlnphis_dP (s : State) : Except PyErr (List ℝ) :=
  mixAttr s (fun em => em.gas.map fun b => b.dlnphis_dP) (fun em => em.liq.map fun b => b.dlnphis_dP)

end EOSGas

/-- Claim C5: every `EOSGas` primitive accessor returns the gas-branch
quantity when the gas root exists, the liquid-branch quantity when only the
liquid root exists, and fails (with the uncaught `AttributeError`) exactly
when neither root exists. -/
theorem claimC5_eosgas_branch_fallback (s : EOSGas.State) (em : EOSMixState)
    (hm : s.eos_mix = some em) :
    (∀ bg, em.gas = some bg →
      EOSGas.V s = .ok bg.V ∧
      EOSGas.dP_dT s = .ok bg.dP_dT ∧
      EOSGas.dP_dV s = .ok bg.dP_dV ∧
      EOSGas.d2P_dT2 s = .ok bg.d2P_dT2 ∧
      EOSGas.d2P_dV2 s = .ok bg.d2P_dV2 ∧
      EOSGas.d2P_dTdV s = .ok bg.d2P_dTdV ∧
      EOSGas.H_dep s = .ok bg.H_dep ∧
      EOSGas.S_dep s = .ok bg.S_dep ∧
      EOSGas.Cp_dep s = .ok bg.Cp_dep ∧
      EOSGas.lnphis s = .ok (em.fugacity_coefficients bg.Z s.zs) ∧
      EOSGas.dlnphis_dT s = .ok bg.dlnphis_dT ∧
      EOSGas.dlnphis_dP s = .ok bg.dlnphis_dP) ∧
    (em.gas = none → ∀ bl, em.liq = some bl →
      EOSGas.V s = .ok bl.V ∧
      EOSGas.dP_dT s = .ok bl.dP_dT ∧
      EOSGas.dP_dV s = .ok bl.dP_dV ∧
      EOSGas.d2P_dT2 s = .ok bl.d2P_dT2 ∧
      EOSGas.d2P_dV2 s = .ok bl.d2P_dV2 ∧
      EOSGas.d2P_dTdV s = .ok bl.d2P_dTdV ∧
      EOSGas.H_dep s = .ok bl.H_dep ∧
      EOSGas.S_dep s = .ok bl.S_dep ∧
      EOSGas.Cp_dep s = .ok bl.Cp_dep ∧
      EOSGas.lnphis s = .ok (em.fugacity_coefficients bl.Z s.zs) ∧
      EOSGas.dlnphis_dT s = .ok bl.dlnphis_dT ∧
      EOSGas.dlnphis_dP s = .ok bl.dlnphis_dP) ∧
    (em.gas = none → em.liq = none →
      EOSGas.V s = .error .attributeError ∧
      EOSGas.dP_dT s = .error .attributeError ∧
      EOSGas.dP_dV s = .error .attributeError ∧
      EOSGas.d2P_dT2 s = .error .attributeError ∧
      EOSGas.d2P_dV2 s = .error .attributeError ∧
      EOSGas.d2P_dTdV s = .error .attributeError ∧
      EOSGas.H_dep s = .error .attributeError ∧
      EOSGas.S_dep s = .error .attributeError ∧
      EOSGas.Cp_dep s = .error .attributeError ∧
      EOSGas.lnphis s = .error .attributeError ∧
      EOSGas.dlnphis_dT s = .error .attributeError ∧
      EOSGas.dlnphis_dP s = .error .attributeError) := by
  refine ⟨?_, ?_, ?_⟩
  · intro bg hg
    simp [EOSGas.V, EOSGas.dP_dT, EOSGas.dP_dV, EOSGas.d2P_dT2,
      EOSGas.d2P_dV2, EOSGas.d2P_dTdV, EOSGas.H_dep, EOSGas.S_dep,
      EOSGas.Cp_dep, EOSGas.lnphis, EOSGas.dlnphis_dT, EOSGas.dlnphis_dP,
      EOSGas.mixAttr, attrFallback, hm, hg]
  · intro hg bl hl
    simp [EOSGas.V, EOSGas.dP_dT, EOSGas.dP_dV, EOSGas.d2P_dT2,
      EOSGas.d2P_dV2, EOSGas.d2P_dTdV, EOSGas.H_dep, EOSGas.S_dep,
      EOSGas.Cp_dep, EOSGas.lnphis, EOSGas.dlnphis_dT, EOSGas.dlnphis_dP,
      EOSGas.mixAttr, attrFallback, hm, hg, hl]
  · intro hg hl
    simp [EOSGas.V, EOSGas.dP_dT, EOSGas.dP_dV, EOSGas.d2P_dT2,
      EOSGas.d2P_dV2, EOSGas.d2P_dTdV, EOSGas.H_dep, EOSGas.S_dep,
      EOSGas.Cp_dep, EOSGas.lnphis, EOSGas.dlnphis_dT, EOSGas.dlnphis_dP,
      EOSGas.mixAttr, attrFallback, hm, hg, hl]

/-- A concrete gas-only branch record used by witnesses. -/
def branchA : EOSBranchResults :=
  { Z := 1, V := 2, dP_dT := 3, dP_dV := 4, d2P_dT2 := 5, d2P_dV2 := 6,
    d2P_dTdV := 7, H_dep := 8, S_dep := 9, Cp_dep := 10,
    dlnphis_dT := [11], dlnphis_dP := [12] }

/-- A concrete EOS mixture with only a gas root. -/
def mixGasOnly : EOSMixState :=
  { T := 300, P := 100000, gas := some branchA, liq := none,
    fugacity_coefficients := fun z zs => zs.map fun x => z * x }

/-- A concrete EOS mixture with only a liquid root. -/
def mixLiqOnly : EOSMixState :=
  { T := 300, P := 100000, gas := none, liq := some branchA,
    fugacity_coefficients := fun z zs => zs.map fun x => z * x }

/-- A concrete EOS mixture with no root at all. -/
def mixNone : EOSMixState :=
  { T := 300, P := 100000, gas := none, liq := none,
    fugacity_coefficients := fun z zs => zs.map fun x => z * x }

/-- A concrete `EOSGas` snapshot around a given mixture object. -/
def mkEOSGasState (em : EOSMixState) : EOSGas.State :=
  { T := some 300, P := some 100000, zs := [1], N := 1,
    eos_mix := some em,
    solveTP := fun _ _ _ => em, solveTV := fun _ _ _ => em,
    solvePV := fun _ _ _ => em,
    HeatCapacityGases := [], Cpgs_locked := false,
    Hfs := none, Gfs := none, Sfs := none }

/-- Witness for C5: the three cases at concrete mixtures. -/
theorem claimC5_eosgas_branch_fallback_witness :
    EOSGas.V (mkEOSGasState mixGasOnly) = .ok 2 ∧
    EOSGas.S_dep (mkEOSGasState mixLiqOnly) = .ok 9 ∧
    EOSGas.lnphis (mkEOSGasState mixNone) = .error .attributeError := by
  refine ⟨?_, ?_, ?_⟩
  · exact ((claimC5_eosgas_branch_fallback (mkEOSGasState mixGasOnly)
      mixGasOnly rfl).1 branchA rfl).1
  · have h := ((claimC5_eosgas_branch_fallback (mkEOSGasState mixLiqOnly)
      mixLiqOnly rfl).2.1 rfl branchA rfl).2.2.2.2.2.2.2.1
    exact h
  · have h := ((claimC5_eosgas_branch_fallback (mkEOSGasState mixNone)
      mixNone rfl).2.2 rfl rfl).2.2.2.2.2.2.2.2.2.1
    exact h

namespace EOSGas

/-- `EOSGas.to_TP_zs` (phases.py lines 1143-1174): builds a fresh snapshot
via `__new__` (so with no memoised attributes), re-solves the EOS at
`(T, P, zs)` and copies the metadata and correlation references from the
receiver.  The body never assigns to `self`. -/
def to_TP_zs (s : State) (T P : ℝ) (zs : List ℝ) : State :=
  { T := some T, P := some P, zs := zs, N := s.N,
    eos_mix := some (s.solveTP T P zs),
    solveTP := s.solveTP, solveTV := s.solveTV, solvePV := s.solvePV,
    HeatCapacityGases := s.HeatCapacityGases,
    Cpgs_locked := s.Cpgs_locked,
    Hfs := s.Hfs, Gfs := s.Gfs, Sfs := s.Sfs }

/-- The method-call form of `to_TP_zs`: the pair (receiver after the call,
returned snapshot).  The source body only reads `self`, so the receiver
comes back unchanged. -/
def to_TP_zs_m (s : State) (T P : ℝ) (zs : List ℝ) : State × State :=
  (s, to_TP_zs s T P zs)

/-- `EOSGas.to_zs_TPV` (phases.py lines 1176-1222), transcribed branch by
branch:

* `T` and `P` given: solve at `(T, P)` — a supplied `V` is ignored;
* `T` and `V` given: solve at `(T, V)`, read `P` off the mixture;
* only `T` given: **no branch assigns `eos_mix`**, and the function
  returns a snapshot with `new.P = None` and no `eos_mix`;
* `T` missing, `P` and `V` given: solve, read `T` off the mixture;
* otherwise: `raise ValueError("Two of T, P, or V are needed")`. -/
def to_zs_TPV (s : State) (zs : List ℝ) (T P V : Option ℝ) :
    Except PyErr State :=
  match T with
  | some t =>
    match P with
    | some p =>
      .ok { T := some t, P := some p, zs := zs, N := s.N,
            eos_mix := some (s.solveTP t p zs),
            solveTP := s.solveTP, solveTV := s.solveTV, solvePV := s.solvePV,
            HeatCapacityGases := s.HeatCapacityGases,
            Cpgs_locked := s.Cpgs_locked,
            Hfs := s.Hfs, Gfs := s.Gfs, Sfs := s.Sfs }
    | none =>
      match V with
      | some v =>
        let em := s.solveTV t v zs
        .ok { T := some t, P := some em.P, zs := zs, N := s.N,
              eos_mix := some em,
              solveTP := s.solveTP, solveTV := s.solveTV, solvePV := s.solvePV,
              HeatCapacityGases := s.HeatCapacityGases,
              Cpgs_locked := s.Cpgs_locked,
              Hfs := s.Hfs, Gfs := s.Gfs, Sfs := s.Sfs }
      | none =>
        -- `T is not None` but neither `P` nor `V`: the if/elif chain falls
        -- through, `new.eos_mix` is never assigned and `new.P = P = None`.
        .ok { T := some t, P := none, zs := zs, N := s.N,
              eos_mix := none,
              solveTP := s.solveTP, solveTV := s.solveTV, solvePV := s.solvePV,
              HeatCapacityGases := s.HeatCapacityGases,
              Cpgs_locked := s.Cpgs_locked,
              Hfs := s.Hfs, Gfs := s.Gfs, Sfs := s.Sfs }
  | none =>
    match P, V with
    | some p, some v =>
      let em := s.solvePV p v zs
      .ok { T := some em.T, P := some p, zs := zs, N := s.N,
            eos_mix := some em,
            solveTP := s.solveTP, solveTV := s.solveTV, solvePV := s.solvePV,
            HeatCapacityGases := s.HeatCapacityGases,
            Cpgs_locked := s.Cpgs_locked,
            Hfs := s.Hfs, Gfs := s.Gfs, Sfs := s.Sfs }
    | _, _ => .error .valueError

end EOSGas

/-- Counterexample to claim C3 as stated: `to_zs_TPV` does **not** raise when
all three of `T`, `P`, `V` are given (it silently uses `T` and `P`), and it
does **not** raise when only `T` is given (it returns a snapshot with no
pressure and no EOS state). -/
theorem claimC3_counterexample :
    exceptOk (EOSGas.to_zs_TPV (mkEOSGasState mixGasOnly) [1]
      (some 300) (some 100000) (some 0.02)) = true ∧
    exceptOk (EOSGas.to_zs_TPV (mkEOSGasState mixGasOnly) [1]
      (some 300) none none) = true := by
  exact ⟨rfl, rfl⟩

/-- Claim C3 as amended: `to_zs_TPV` raises the input `ValueError` exactly
when `T` is unspecified and at most one of `P`, `V` is specified.  With
exactly two of `T`/`P`/`V` given it returns a snapshot with the third state
variable solved from the model; with all three given it behaves exactly as
the `(T, P)` call, ignoring `V`; with only `T` given it returns (without
raising) a degenerate snapshot whose `P` and `eos_mix` are absent. -/
theorem claimC3_amended (s : EOSGas.State) (zs : List ℝ) (T P V : Option ℝ) :
    (exceptOk (EOSGas.to_zs_TPV s zs T P V) = false ↔
      T = none ∧ (P = none ∨ V = none)) ∧
    (∀ t p, T = some t → P = some p →
      EOSGas.to_zs_TPV s zs T P V = EOSGas.to_zs_TPV s zs T P none ∧
      ∃ r, EOSGas.to_zs_TPV s zs T P V = .ok r ∧
        r.T = some t ∧ r.P = some p ∧ r.eos_mix = some (s.solveTP t p zs)) ∧
    (∀ t v, T = some t → P = none → V = some v →
      ∃ r, EOSGas.to_zs_TPV s zs T P V = .ok r ∧
        r.T = some t ∧ r.P = some (s.solveTV t v zs).P ∧
        r.eos_mix = some (s.solveTV t v zs)) ∧
    (∀ p v, T = none → P = some p → V = some v →
      ∃ r, EOSGas.to_zs_TPV s zs T P V = .ok r ∧
        r.T = some (s.solvePV p v zs).T ∧ r.P = some p ∧
        r.eos_mix = some (s.solvePV p v zs)) ∧
    (∀ t, T = some t → P = none → V = none →
      ∃ r, EOSGas.to_zs_TPV s zs T P V = .ok r ∧
        r.T = some t ∧ r.P = none ∧ r.eos_mix = none) := by
  refine ⟨?_, ?_, ?_, ?_, ?_⟩
  · constructor
    · intro h
      cases T with
      | some t =>
        exfalso
        cases P with
        | some p => simp [EOSGas.to_zs_TPV, exceptOk] at h
        | none =>
          cases V with
          | some v => simp [EOSGas.to_zs_TPV, exceptOk] at h
          | none => simp [EOSGas.to_zs_TPV, exceptOk] at h
      | none =>
        refine ⟨rfl, ?_⟩
        cases P with
        | none => exact Or.inl rfl
        | some p =>
          cases V with
          | none => exact Or.inr rfl
          | some v => simp [EOSGas.to_zs_TPV, exceptOk] at h
    · rintro ⟨hT, hPV⟩
      subst hT
      rcases hPV with hP | hV
      · subst hP; cases V <;> rfl
      · subst hV; cases P <;> rfl
  · rintro t p rfl rfl
    exact ⟨by cases V <;> rfl, _, rfl, rfl, rfl, rfl⟩
  · rintro t v rfl rfl rfl
    exact ⟨_, rfl, rfl, rfl, rfl⟩
  · rintro p v rfl rfl rfl
    exact ⟨_, rfl, rfl, rfl, rfl⟩
  · rintro t rfl rfl rfl
    exact ⟨_, rfl, rfl, rfl, rfl⟩

/-- Witness for the amended C3 at concrete inputs. -/
theorem claimC3_amended_witness :
    (exceptOk (EOSGas.to_zs_TPV (mkEOSGasState mixGasOnly) [1]
      none (some 100000) none) = false ↔
      (none : Option ℝ) = none ∧
        ((some (100000 : ℝ) : Option ℝ) = none ∨ (none : Option ℝ) = none)) ∧
    (∃ r, EOSGas.to_zs_TPV (mkEOSGasState mixGasOnly) [1]
        (some 300) none (some 0.02) = .ok r ∧
      r.T = some 300 ∧
      r.P = some ((mkEOSGasState mixGasOnly).solveTV 300 0.02 [1]).P ∧
      r.eos_mix = some ((mkEOSGasState mixGasOnly).solveTV 300 0.02 [1])) := by
  constructor
  · exact (claimC3_amended (mkEOSGasState mixGasOnly) [1]
      none (some 100000) none).1
  · exact (claimC3_amended (mkEOSGasState mixGasOnly) [1]
      (some 300) none (some 0.02)).2.2.1 300 0.02 rfl rfl rfl

/-! ### The locked ideal-gas heat-capacity table bundle
(`Phase.setup_Cpigs`, phases.py lines 571-607, and the fast evaluators
`_Cp_pure_fast` / `_Cp_integrals_pure_fast` / `_Cp_integrals_over_T_pure_fast`,
lines 610-715).

The 16-tuple of per-component lists built by `setup_Cpigs` is modelled as a
list of per-component records (`CpgsEntry`); field docstrings give the tuple
index. -/

/-- The locked best-fit data a `HeatCapacityGas` correlation object exposes
(spec section 6). -/
structure HeatCapacityFit where
  best_fit_Tmin : ℝ
  best_fit_Tmin_slope : ℝ
  best_fit_Tmin_value : ℝ
  best_fit_Tmax : ℝ
  best_fit_Tmax_slope : ℝ
  best_fit_Tmax_value : ℝ
  best_fit_log_coeff : ℝ
  best_fit_coeffs : List ℝ
  best_fit_int_coeffs : List ℝ
  best_fit_T_int_T_coeffs : List ℝ

/-- Modelled from the spec: `fluids.numerics.horner_log` (external to this
repository).  Usage in `setup_Cpigs` and in `_Cp_integrals_over_T_pure_fast`
(where the expansion `horner(T_int_T_coeffs, T) + log_coeff*log(T)` is
written out) fixes it as polynomial-plus-logarithm evaluation. -/
noncomputable def horner_log (coeffs : List ℝ) (log_coeff x : ℝ) : ℝ :=
  horner coeffs x + log_coeff * Real.log x

/-- Modelled from the spec (section 4.1, definite integral of the three-piece
correlation): `fluids.numerics.best_fit_integral_value` (external to this
repository), reconstructed from the reference loop kept in comments inside
`Phase._Cp_integrals_pure_fast` (phases.py lines 642-664).  It evaluates the
continuous piecewise antiderivative of the three-piece value function,
normalised so that the low-temperature piece is `T*(0.5*slope*T + x1)`. -/
noncomputable def best_fit_integral_value (T : ℝ) (int_coeffs : List ℝ)
    (Tmin Tmax Tmin_value Tmax_value Tmin_slope Tmax_slope : ℝ) : ℝ :=
  if T < Tmin then
    T * (0.5 * Tmin_slope * T + (Tmin_value - Tmin_slope * Tmin))
  else if T ≤ Tmax then
    Tmin * (0.5 * Tmin_slope * Tmin + (Tmin_value - Tmin_slope * Tmin)) +
      (horner int_coeffs T - horner int_coeffs Tmin)
  else
    Tmin * (0.5 * Tmin_slope * Tmin + (Tmin_value - Tmin_slope * Tmin)) +
      (horner int_coeffs Tmax - horner int_coeffs Tmin) +
      (T * (0.5 * Tmax_slope * T + (Tmax_value - Tmax_slope * Tmax)) -
        Tmax * (0.5 * Tmax_slope * Tmax + (Tmax_value - Tmax_slope * Tmax)))

/-- Modelled from the spec (section 4.1, definite integral of value/T):
`fluids.numerics.best_fit_integral_over_T_value` (external to this
repository), reconstructed from the offsets computed in `setup_Cpigs`
(phases.py lines 588-593) and the fast loop in
`_Cp_integrals_over_T_pure_fast`. -/
noncomputable def best_fit_integral_over_T_value (T : ℝ)
    (T_int_T_coeffs : List ℝ)
    (log_coeff Tmin Tmax Tmin_value Tmax_value Tmin_slope Tmax_slope : ℝ) : ℝ :=
  if T < Tmin then
    Tmin_slope * T + (Tmin_value - Tmin_slope * Tmin) * Real.log T
  else if T ≤ Tmax then
    (Tmin_slope * Tmin + (Tmin_value - Tmin_slope * Tmin) * Real.log Tmin) +
      (horner_log T_int_T_coeffs log_coeff T -
        horner_log T_int_T_coeffs log_coeff Tmin)
  else
    (Tmin_slope * Tmin + (Tmin_value - Tmin_slope * Tmin) * Real.log Tmin) +
      (horner_log T_int_T_coeffs log_coeff Tmax -
        horner_log T_int_T_coeffs log_coeff Tmin) +
      (Tmax_slope * (T - Tmax) +
        (Tmax_value - Tmax * Tmax_slope) * (Real.log T - Real.log Tmax))

/-- One per-component column of the `Cpgs_data` 16-tuple built by
`Phase.setup_Cpigs`. -/
structure CpgsEntry where
  /-- index 0: `best_fit_Tmin`. -/
  Tmin : ℝ
  /-- index 1: `best_fit_Tmin_slope`. -/
  Tmin_slope : ℝ
  /-- index 2: `best_fit_Tmin_value`. -/
  Tmin_value : ℝ
  /-- index 3: `best_fit_Tmax`. -/
  Tmax : ℝ
  /-- index 4: `best_fit_Tmax_slope`. -/
  Tmax_slope : ℝ
  /-- index 5: `best_fit_Tmax_value`. -/
  Tmax_value : ℝ
  /-- index 6: `best_fit_log_coeff`. -/
  log_coeff : ℝ
  /-- index 7: offset making the in-range integral piece join the
  low-temperature piece at `Tmin`. -/
  int_Tmin_offset : ℝ
  /-- index 8: offset making the high-temperature integral piece join at
  `Tmax`. -/
  int_Tmax_offset : ℝ
  /-- index 9: same as index 7 for the integral-over-T. -/
  int_over_T_Tmin_offset : ℝ
  /-- index 10: same as index 8 for the integral-over-T. -/
  int_over_T_Tmax_offset : ℝ
  /-- index 11: the piecewise integral evaluated at `T_REF_IG`. -/
  int_T_ref : ℝ
  /-- index 12: `best_fit_coeffs`. -/
  coeffs : List ℝ
  /-- index 13: `best_fit_int_coeffs`. -/
  int_coeffs : List ℝ
  /-- index 14: `best_fit_T_int_T_coeffs`. -/
  T_int_T_coeffs : List ℝ
  /-- index 15: the piecewise integral-over-T evaluated at `T_REF_IG`. -/
  int_over_T_T_ref : ℝ

namespace Phase

/-- `Phase.setup_Cpigs` (phases.py lines 571-607), per component. -/
noncomputable def setup_Cpigs_entry (i : HeatCapacityFit) : CpgsEntry :=
  { Tmin := i.best_fit_Tmin
    Tmin_slope := i.best_fit_Tmin_slope
    Tmin_value := i.best_fit_Tmin_value
    Tmax := i.best_fit_Tmax
    Tmax_slope := i.best_fit_Tmax_slope
    Tmax_value := i.best_fit_Tmax_value
    log_coeff := i.best_fit_log_coeff
    int_Tmin_offset :=
      horner i.best_fit_int_coeffs i.best_fit_Tmin -
        i.best_fit_Tmin * (0.5 * i.best_fit_Tmin_slope * i.best_fit_Tmin +
          i.best_fit_Tmin_value - i.best_fit_Tmin_slope * i.best_fit_Tmin)
    int_Tmax_offset :=
      horner i.best_fit_int_coeffs i.best_fit_Tmax -
        horner i.best_fit_int_coeffs i.best_fit_Tmin +
        i.best_fit_Tmin * (0.5 * i.best_fit_Tmin_slope * i.best_fit_Tmin +
          i.best_fit_Tmin_value - i.best_fit_Tmin_slope * i.best_fit_Tmin)
    int_over_T_Tmin_offset :=
      horner_log i.best_fit_T_int_T_coeffs i.best_fit_log_coeff
          i.best_fit_Tmin -
        (i.best_fit_Tmin_slope * i.best_fit_Tmin +
          (i.best_fit_Tmin_value - i.best_fit_Tmin_slope * i.best_fit_Tmin) *
            Real.log i.best_fit_Tmin)
    int_over_T_Tmax_offset :=
      horner_log i.best_fit_T_int_T_coeffs i.best_fit_log_coeff
          i.best_fit_Tmax -
        horner_log i.best_fit_T_int_T_coeffs i.best_fit_log_coeff
          i.best_fit_Tmin +
        (i.best_fit_Tmin_slope * i.best_fit_Tmin +
          (i.best_fit_Tmin_value - i.best_fit_Tmin_slope * i.best_fit_Tmin) *
            Real.log i.best_fit_Tmin) -
        (i.best_fit_Tmax_value - i.best_fit_Tmax * i.best_fit_Tmax_slope) *
          Real.log i.best_fit_Tmax
    int_T_ref :=
      best_fit_integral_value T_REF_IG i.best_fit_int_coeffs
        i.best_fit_Tmin i.best_fit_Tmax i.best_fit_Tmin_value
        i.best_fit_Tmax_value i.best_fit_Tmin_slope i.best_fit_Tmax_slope
    coeffs := i.best_fit_coeffs
    int_coeffs := i.best_fit_int_coeffs
    T_int_T_coeffs := i.best_fit_T_int_T_coeffs
    int_over_T_T_ref :=
      best_fit_integral_over_T_value T_REF_IG i.best_fit_T_int_T_coeffs
        i.best_fit_log_coeff i.best_fit_Tmin i.best_fit_Tmax
        i.best_fit_Tmin_value i.best_fit_Tmax_value i.best_fit_Tmin_slope
        i.best_fit_Tmax_slope }

/-- Loop body of `Phase._Cp_pure_fast` (phases.py lines 610-629) for one
component: the three-piece value function. -/
noncomputable def Cp_pure_fast_entry (T : ℝ) (e : CpgsEntry) : ℝ :=
  if T < e.Tmin then (T - e.Tmin) * e.Tmin_slope + e.Tmin_value
  else if T > e.Tmax then (T - e.Tmax) * e.Tmax_slope + e.Tmax_value
  else horner e.coeffs T

/-- Loop body of `Phase._Cp_integrals_pure_fast` (phases.py lines 631-684)
for one component: the definite integral of the three-piece value function
from `T_REF_IG` to `T`, assembled from the precomputed offsets. -/
noncomputable def Cp_integral_pure_fast_entry (T : ℝ) (e : CpgsEntry) : ℝ :=
  (if T < e.Tmin then
    T * (0.5 * e.Tmin_slope * T + (e.Tmin_value - e.Tmin_slope * e.Tmin))
  else if T ≤ e.Tmax then
    horner e.int_coeffs T - e.int_Tmin_offset
  else
    T * (0.5 * e.Tmax_slope * T + (e.Tmax_value - e.Tmax_slope * e.Tmax)) -
      e.Tmax * (0.5 * e.Tmax_slope * e.Tmax +
        (e.Tmax_value - e.Tmax_slope * e.Tmax)) +
      e.int_Tmax_offset) -
  e.int_T_ref

/-- `Phase._Cp_integrals_pure_fast` over all components. -/
noncomputable def _Cp_integrals_pure_fast (T : ℝ) (entries : List CpgsEntry) :
    List ℝ :=
  entries.map (Cp_integral_pure_fast_entry T)

/-- Loop body of `Phase._Cp_integrals_over_T_pure_fast` (phases.py lines
686-715) for one component. -/
noncomputable def Cp_integral_over_T_fast_entry (T : ℝ) (e : CpgsEntry) : ℝ :=
  (if T < e.Tmin then
    e.Tmin_slope * T + (e.Tmin_value - e.Tmin_slope * e.Tmin) * Real.log T
  else if e.Tmin ≤ T ∧ T ≤ e.Tmax then
    horner e.T_int_T_coeffs T + e.log_coeff * Real.log T -
      e.int_over_T_Tmin_offset
  else
    e.int_over_T_Tmax_offset +
      (-(e.Tmax_slope * (e.Tmax - T)) +
        (e.Tmax_value - e.Tmax * e.Tmax_slope) * Real.log T)) -
  e.int_over_T_T_ref

/-- `Phase._Cp_integrals_over_T_pure_fast` over all components. -/
noncomputable def _Cp_integrals_over_T_pure_fast (T : ℝ)
    (entries : List CpgsEntry) : List ℝ :=
  entries.map (Cp_integral_over_T_fast_entry T)

end Phase

/-- Continuity of Horner evaluation in the point of evaluation. -/
lemma continuous_horner (cs : List ℝ) : Continuous fun x => horner cs x := by
  have aux : ∀ (l : List ℝ) (p : ℝ → ℝ), Continuous p →
      Continuous fun x => l.foldl (fun tot c => tot * x + c) (p x) := by
    intro l
    induction l with
    | nil => intro p hp; simpa using hp
    | cons c cs ih =>
      intro p hp
      have hrw : (fun x => (c :: cs).foldl (fun tot d => tot * x + d) (p x)) =
          fun x => cs.foldl (fun tot d => tot * x + d) (p x * x + c) := rfl
      rw [hrw]
      exact ih _ (((hp.mul continuous_id).add continuous_const))
  simpa [horner] using aux cs (fun _ => 0) continuous_const

/-- Gluing criterion: a function that agrees with a continuous `A` just left
of `c` and with a continuous `B` just right of `c`, with matching values at
`c`, is continuous at `c`. -/
lemma continuousAt_of_eventually_left_right {F A B : ℝ → ℝ} {c : ℝ}
    (hA : ContinuousAt A c) (hB : ContinuousAt B c)
    (hl : ∀ᶠ x in nhdsWithin c (Set.Iio c), F x = A x)
    (hr : ∀ᶠ x in nhdsWithin c (Set.Ioi c), F x = B x)
    (hcB : F c = B c) (hAB : A c = B c) :
    ContinuousAt F c := by
  rw [continuousAt_iff_continuous_left'_right']
  constructor
  · exact hA.continuousWithinAt.congr_of_eventuallyEq hl (by rw [hcB, hAB])
  · exact hB.continuousWithinAt.congr_of_eventuallyEq hr hcB

/-- The closed-form piecewise integral is continuous at the lower
breakpoint: its low and mid pieces join at `Tmin`. -/
lemma best_fit_integral_value_continuousAt_Tmin (ic : List ℝ)
    (Tmin Tmax v1 v2 s1 s2 : ℝ) (h : Tmin < Tmax) :
    ContinuousAt (fun T => best_fit_integral_value T ic Tmin Tmax v1 v2 s1 s2)
      Tmin := by
  apply continuousAt_of_eventually_left_right
    (A := fun T => T * (0.5 * s1 * T + (v1 - s1 * Tmin)))
    (B := fun T => Tmin * (0.5 * s1 * Tmin + (v1 - s1 * Tmin)) +
      (horner ic T - horner ic Tmin))
  · exact (continuous_id.mul ((continuous_const.mul continuous_id).add
      continuous_const)).continuousAt
  · exact (continuous_const.add ((continuous_horner ic).sub
      continuous_const)).continuousAt
  · apply Filter.eventuallyEq_of_mem (self_mem_nhdsWithin)
    intro x hx
    have hx' : x < Tmin := hx
    simp only [best_fit_integral_value, if_pos hx']
  · apply Filter.eventuallyEq_of_mem
      (Filter.inter_mem self_mem_nhdsWithin
        (mem_nhdsWithin_of_mem_nhds (Iio_mem_nhds h)))
    rintro x ⟨hx1, hx2⟩
    have hge : ¬ x < Tmin := not_lt.mpr (le_of_lt hx1)
    have hle : x ≤ Tmax := le_of_lt hx2
    simp only [best_fit_integral_value, if_neg hge, if_pos hle]
  · simp only [best_fit_integral_value, if_neg (lt_irrefl Tmin),
      if_pos (le_of_lt h)]
  · ring

/-- The closed-form piecewise integral is continuous at the upper
breakpoint: its mid and high pieces join at `Tmax`. -/
lemma best_fit_integral_value_continuousAt_Tmax (ic : List ℝ)
    (Tmin Tmax v1 v2 s1 s2 : ℝ) (h : Tmin < Tmax) :
    ContinuousAt (fun T => best_fit_integral_value T ic Tmin Tmax v1 v2 s1 s2)
      Tmax := by
  apply continuousAt_of_eventually_left_right
    (A := fun T => Tmin * (0.5 * s1 * Tmin + (v1 - s1 * Tmin)) +
      (horner ic T - horner ic Tmin))
    (B := fun T => Tmin * (0.5 * s1 * Tmin + (v1 - s1 * Tmin)) +
      (horner ic Tmax - horner ic Tmin) +
      (T * (0.5 * s2 * T + (v2 - s2 * Tmax)) -
        Tmax * (0.5 * s2 * Tmax + (v2 - s2 * Tmax))))
  · exact (continuous_const.add ((continuous_horner ic).sub
      continuous_const)).continuousAt
  · exact (continuous_const.add ((continuous_id.mul
      ((continuous_const.mul continuous_id).add continuous_const)).sub
      continuous_const)).continuousAt
  · apply Filter.eventuallyEq_of_mem
      (Filter.inter_mem self_mem_nhdsWithin
        (mem_nhdsWithin_of_mem_nhds (Ioi_mem_nhds h)))
    rintro x ⟨hx1, hx2⟩
    have hge : ¬ x < Tmin := not_lt.mpr (le_of_lt hx2)
    have hle : x ≤ Tmax := le_of_lt hx1
    simp only [best_fit_integral_value, if_neg hge, if_pos hle]
  · apply Filter.eventuallyEq_of_mem (self_mem_nhdsWithin)
    intro x hx
    have hx1 : Tmax < x := hx
    have hge : ¬ x < Tmin := not_lt.mpr (le_of_lt (lt_trans h hx1))
    have hgt : ¬ x ≤ Tmax := not_le.mpr hx1
    simp only [best_fit_integral_value, if_neg hge, if_neg hgt]
  · simp only [best_fit_integral_value,
      if_neg (not_lt.mpr (le_of_lt h)), if_pos (le_refl Tmax)]
    ring
  · ring

/-- Claim C6: for a locked heat-capacity fit with `Tmin < Tmax` whose range
contains the reference temperature `T_REF_IG = 298.15`, the fast-path
definite integral built by `setup_Cpigs` equals the closed-form piecewise
integral difference at every temperature; inside the fit range it reduces to
the exact polynomial antiderivative difference; and as a function of `T` it
is continuous at both breakpoints. -/
theorem claimC6_cp_integral_fast (f : HeatCapacityFit)
    (hTm : f.best_fit_Tmin < f.best_fit_Tmax)
    (hrl : f.best_fit_Tmin ≤ T_REF_IG) (hru : T_REF_IG ≤ f.best_fit_Tmax) :
    (∀ T, Phase.Cp_integral_pure_fast_entry T (Phase.setup_Cpigs_entry f) =
      best_fit_integral_value T f.best_fit_int_coeffs f.best_fit_Tmin
          f.best_fit_Tmax f.best_fit_Tmin_value f.best_fit_Tmax_value
          f.best_fit_Tmin_slope f.best_fit_Tmax_slope -
        best_fit_integral_value T_REF_IG f.best_fit_int_coeffs f.best_fit_Tmin
          f.best_fit_Tmax f.best_fit_Tmin_value f.best_fit_Tmax_value
          f.best_fit_Tmin_slope f.best_fit_Tmax_slope) ∧
    (∀ T, f.best_fit_Tmin ≤ T → T ≤ f.best_fit_Tmax →
      Phase.Cp_integral_pure_fast_entry T (Phase.setup_Cpigs_entry f) =
        horner f.best_fit_int_coeffs T -
          horner f.best_fit_int_coeffs T_REF_IG) ∧
    ContinuousAt
      (fun T => Phase.Cp_integral_pure_fast_entry T (Phase.setup_Cpigs_entry f))
      f.best_fit_Tmin ∧
    ContinuousAt
      (fun T => Phase.Cp_integral_pure_fast_entry T (Phase.setup_Cpigs_entry f))
      f.best_fit_Tmax := by
  have hpiece : ∀ T,
      Phase.Cp_integral_pure_fast_entry T (Phase.setup_Cpigs_entry f) =
        best_fit_integral_value T f.best_fit_int_coeffs f.best_fit_Tmin
            f.best_fit_Tmax f.best_fit_Tmin_value f.best_fit_Tmax_value
            f.best_fit_Tmin_slope f.best_fit_Tmax_slope -
          best_fit_integral_value T_REF_IG f.best_fit_int_coeffs
            f.best_fit_Tmin f.best_fit_Tmax f.best_fit_Tmin_value
            f.best_fit_Tmax_value f.best_fit_Tmin_slope
            f.best_fit_Tmax_slope := by
    intro T
    simp only [Phase.Cp_integral_pure_fast_entry, Phase.setup_Cpigs_entry,
      best_fit_integral_value]
    split_ifs <;> ring
  have hin : ∀ T, f.best_fit_Tmin ≤ T → T ≤ f.best_fit_Tmax →
      Phase.Cp_integral_pure_fast_entry T (Phase.setup_Cpigs_entry f) =
        horner f.best_fit_int_coeffs T -
          horner f.best_fit_int_coeffs T_REF_IG := by
    intro T hT1 hT2
    rw [hpiece T]
    simp only [best_fit_integral_value, if_neg (not_lt.mpr hT1), if_pos hT2,
      if_neg (not_lt.mpr hrl), if_pos hru]
    ring
  have hfun : (fun T =>
      Phase.Cp_integral_pure_fast_entry T (Phase.setup_Cpigs_entry f)) =
      fun T =>
        best_fit_integral_value T f.best_fit_int_coeffs f.best_fit_Tmin
            f.best_fit_Tmax f.best_fit_Tmin_value f.best_fit_Tmax_value
            f.best_fit_Tmin_slope f.best_fit_Tmax_slope -
          best_fit_integral_value T_REF_IG f.best_fit_int_coeffs
            f.best_fit_Tmin f.best_fit_Tmax f.best_fit_Tmin_value
            f.best_fit_Tmax_value f.best_fit_Tmin_slope
            f.best_fit_Tmax_slope := funext hpiece
  refine ⟨hpiece, hin, ?_, ?_⟩
  · rw [hfun]
    exact (best_fit_integral_value_continuousAt_Tmin _ _ _ _ _ _ _ hTm).sub
      continuousAt_const
  · rw [hfun]
    exact (best_fit_integral_value_continuousAt_Tmax _ _ _ _ _ _ _ hTm).sub
      continuousAt_const

/-- Witness for C6 at a concrete locked fit (`Cp = 1`, so the integral
coefficients are `[1, 0]`): the in-range reduction evaluated at `T = 300`. -/
theorem claimC6_cp_integral_fast_witness :
    Phase.Cp_integral_pure_fast_entry 300
        (Phase.setup_Cpigs_entry
          { best_fit_Tmin := 1, best_fit_Tmin_slope := 0,
            best_fit_Tmin_value := 1, best_fit_Tmax := 1000,
            best_fit_Tmax_slope := 0, best_fit_Tmax_value := 1,
            best_fit_log_coeff := 0, best_fit_coeffs := [1],
            best_fit_int_coeffs := [1, 0], best_fit_T_int_T_coeffs := [] }) =
      horner [1, 0] 300 - horner [1, 0] T_REF_IG := by
  exact (claimC6_cp_integral_fast
    { best_fit_Tmin := 1, best_fit_Tmin_slope := 0,
      best_fit_Tmin_value := 1, best_fit_Tmax := 1000,
      best_fit_Tmax_slope := 0, best_fit_Tmax_value := 1,
      best_fit_log_coeff := 0, best_fit_coeffs := [1],
      best_fit_int_coeffs := [1, 0], best_fit_T_int_T_coeffs := [] }
    (by norm_num) (by norm_num [T_REF_IG]) (by norm_num [T_REF_IG])).2.1
    300 (by norm_num) (by norm_num)

/-! ### GibbsExcessLiquid (phases.py lines 1471-2800)

The pure-component correlation objects (vapor pressure, liquid volume, heat
capacities, enthalpy of vaporization) and the activity-coefficient model are
external collaborators (spec section 6); they are modelled as bundles of
total real functions.  In the generic (non-locked) evaluation branches the
method-resetting / tabular-extrapolation bookkeeping and the Henry's-law
blending (flagged in the spec, section 9, as an incomplete placeholder) are
collapsed into the collaborator call: every state considered by the claims
has `has_henry_components = False`. -/

/-- A temperature-dependent correlation collaborator (spec section 6). -/
structure TDependentObj where
  /-- `obj(T)` / `obj.T_dependent_property(T)`. -/
  prop : ℝ → ℝ
  /-- `obj.T_dependent_property_derivative(T)`. -/
  prop_der : ℝ → ℝ
  /-- `obj.T_dependent_property_integral(T1, T2)`. -/
  integral : ℝ → ℝ → ℝ
  /-- `obj.T_dependent_property_integral_over_T(T1, T2)`. -/
  integral_over_T : ℝ → ℝ → ℝ

/-- One per-component column of a 9-tuple best-fit bundle
(`Psats_data`, `Vms_sat_data`, `Tait_B_data`, `Tait_C_data`). -/
structure LinearFit where
  Tmin : ℝ
  Tmin_slope : ℝ
  Tmin_value : ℝ
  Tmax : ℝ
  Tmax_slope : ℝ
  Tmax_value : ℝ
  coeffs : List ℝ
  d_coeffs : List ℝ
  d2_coeffs : List ℝ

/-- Modelled from the spec (section 4.1 Piecewise-Fit Evaluator):
`fluids.numerics.evaluate_linear_fits` (external to this repository), whose
loop is kept in comments inside `GibbsExcessLiquid.Vms_sat`
(phases.py lines 1851-1863). -/
noncomputable def evaluate_linear_fits (data : List LinearFit) (T : ℝ) :
    List ℝ :=
  data.map fun d =>
    if T < d.Tmin then (T - d.Tmin) * d.Tmin_slope + d.Tmin_value
    else if T > d.Tmax then (T - d.Tmax) * d.Tmax_slope + d.Tmax_value
    else horner d.coeffs T

/-- Modelled from the spec (section 4.1):
`fluids.numerics.evaluate_linear_fits_d` (external to this repository),
whose loop is kept in comments inside `GibbsExcessLiquid.dVms_sat_dT`
(phases.py lines 1879-1891). -/
noncomputable def evaluate_linear_fits_d (data : List LinearFit) (T : ℝ) :
    List ℝ :=
  data.map fun d =>
    if T < d.Tmin then d.Tmin_slope
    else if T > d.Tmax then d.Tmax_slope
    else horner d.d_coeffs T

/-- The activity-coefficient (excess-Gibbs) collaborator at a fixed
`(T, xs)` (spec section 6). -/
structure GibbsExcessModelState where
  gammas : List ℝ
  dgammas_dT : List ℝ
  HE : ℝ
  SE : ℝ
  CpE : ℝ

/-- One per-component column of the `Hvap_data` 5-tuple. -/
structure HvapFit where
  Tmin : ℝ
  Tmax : ℝ
  Tc : ℝ
  Tc_inv : ℝ
  coeffs : List ℝ

/-- `Σ zi * xi` over `zip(zs, xs)` (Python's `zip` truncates to the shorter
list). -/
def listDot (xs ys : List ℝ) : ℝ :=
  ((xs.zip ys).map fun p => p.1 * p.2).sum

/-- `Σ_{i<n} f i`, the `for i in cmps` accumulation pattern. -/
noncomputable def sumIdx (n : ℕ) (f : ℕ → ℝ) : ℝ :=
  ∑ i in Finset.range n, f i

namespace GibbsExcessLiquid

/-- A `GibbsExcessLiquid` snapshot: state triple, configuration flags,
locked correlation tables, collaborator references and the memoisation
caches (which a freshly built snapshot does not carry, hence the `none`
defaults).  `GibbsExcessModelFamily` stands for
`GibbsExcessModel.to_T_xs(T, xs)`, the re-evaluation of the activity model
at a new state. -/
structure State where
  T : ℝ
  P : ℝ
  zs : List ℝ
  N : ℕ
  P_DEPENDENT_H_LIQ : Bool
  use_IG_Cp : Bool
  use_Poynting : Bool
  use_phis_sat : Bool
  use_Tait : Bool
  Psats_locked : Bool
  Cpgs_locked : Bool
  Cpls_locked : Bool
  Vms_sat_locked : Bool
  Hvap_locked : Bool
  has_henry_components : Bool
  Psats_data : List LinearFit
  Cpgs_data : List CpgsEntry
  Cpls_data : List CpgsEntry
  Vms_sat_data : List LinearFit
  Hvap_data : List HvapFit
  Tait_B_data : List LinearFit
  Tait_C_data : List LinearFit
  VaporPressures : List TDependentObj
  VolumeLiquids : List TDependentObj
  HeatCapacityGases : List TDependentObj
  HeatCapacityLiquids : List TDependentObj
  EnthalpyVaporizations : List TDependentObj
  eos_pure_instances : List (ℝ → ℝ)
  GibbsExcessModel : GibbsExcessModelState
  GibbsExcessModelFamily : ℝ → List ℝ → GibbsExcessModelState
  henry_components : List Bool
  Hfs : Option (List ℝ)
  Gfs : Option (List ℝ)
  Sfs : Option (List ℝ)
  -- memoisation caches, written at most once per snapshot
  _S : Option ℝ := none
  _H : Option ℝ := none
  _Cp : Option ℝ := none
  _V : Option ℝ := none
  _log_zs : Option (List ℝ) := none
  _Psats : Option (List ℝ) := none
  _dPsats_dT : Option (List ℝ) := none
  _Vms_sat : Option (List ℝ) := none
  _Vms_sat_dT : Option (List ℝ) := none
  _Vms_sat_T_ref : Option (List ℝ) := none
  _dVms_sat_dT_T_ref : Option (List ℝ) := none
  _Psats_T_ref : Option (List ℝ) := none
  _Hvaps : Option (List ℝ) := none
  _Hvaps_T_ref : Option (List ℝ) := none
  _Cpig_integrals_pure : Option (List ℝ) := none
  _Cpig_integrals_over_T_pure : Option (List ℝ) := none
  _Cpl_integrals_pure : Option (List ℝ) := none
  _Cpl_integrals_over_T_pure : Option (List ℝ) := none
  _Poyntings : Option (List ℝ) := none
  _phis : Option (List ℝ) := none
  _lnphis : Option (List ℝ) := none

/-- `GibbsExcessLiquid.Psats` (phases.py lines 1701-1777), cache-miss
computation.  Locked branch transcribed from the source; generic branch
collapsed into the collaborator call (see the section comment). -/
noncomputable def Psats_value (s : State) : List ℝ :=
  if s.Psats_locked then
    s.Psats_data.map fun d =>
      Real.exp
        (if s.T < d.Tmin then (s.T - d.Tmin) * d.Tmin_slope + d.Tmin_value
         else if s.T > d.Tmax then (s.T - d.Tmax) * d.Tmax_slope + d.Tmax_value
         else horner d.coeffs s.T)
  else
    s.VaporPressures.map fun v => v.prop s.T

/-- `GibbsExcessLiquid.dPsats_dT` (phases.py lines 1781-1814), cache-miss
computation. -/
noncomputable def dPsats_dT_value (s : State) : List ℝ :=
  if s.Psats_locked then
    (s.Psats_data.zip (Psats_value s)).map fun p =>
      if s.T < p.1.Tmin then p.1.Tmin_slope * p.2
      else if s.T > p.1.Tmax then p.1.Tmax_slope * p.2
      else horner p.1.d_coeffs s.T * p.2
  else
    s.VaporPressures.map fun v => v.prop_der s.T

/-- `GibbsExcessLiquid.Vms_sat` (phases.py lines 1842-1867), cache-miss
computation. -/
noncomputable def Vms_sat_value (s : State) : List ℝ :=
  if s.Vms_sat_locked then evaluate_linear_fits s.Vms_sat_data s.T
  else s.VolumeLiquids.map fun v => v.prop s.T

/-- `GibbsExcessLiquid.dVms_sat_dT` (phases.py lines 1869-1895), cache-miss
computation. -/
noncomputable def dVms_sat_dT_value (s : State) : List ℝ :=
  if s.Vms_sat_locked then evaluate_linear_fits_d s.Vms_sat_data s.T
  else s.VolumeLiquids.map fun v => v.prop_der s.T

/-- `GibbsExcessLiquid.Vms_sat_T_ref` (phases.py lines 1923-1934),
cache-miss computation. -/
noncomputable def Vms_sat_T_ref_value (s : State) : List ℝ :=
  if s.Vms_sat_locked then evaluate_linear_fits s.Vms_sat_data T_REF_IG
  else s.VolumeLiquids.map fun v => v.prop T_REF_IG

/-- `GibbsExcessLiquid.dVms_sat_dT_T_ref` (phases.py lines 1936-1947),
cache-miss computation.  In the locked branch the source evaluates
`evaluate_linear_fits_d(self.Vms_sat_data, T)` — but the name `T` is
unbound in that scope (only `T_REF_IG` is defined there), so evaluating the
argument list raises `NameError` before the helper is even called. -/
noncomputable def dVms_sat_dT_T_ref_value (s : State) :
    Except PyErr (List ℝ) :=
  if s.Vms_sat_locked then .error .nameError
  else .ok (s.VolumeLiquids.map fun v => v.prop_der T_REF_IG)

/-- `GibbsExcessLiquid.dVms_sat_dT_T_ref` with its memoisation guard: the
pair (result, receiver after the call).  A raised exception aborts before
the cache assignment. -/
noncomputable def dVms_sat_dT_T_ref_call (s : State) :
    Except PyErr (List ℝ) × State :=
  match s._dVms_sat_dT_T_ref with
  | some v => (.ok v, s)
  | none =>
    match dVms_sat_dT_T_ref_value s with
    | .ok v => (.ok v, { s with _dVms_sat_dT_T_ref := some v })
    | .error e => (.error e, s)

/-- `GibbsExcessLiquid.Psats_T_ref` (phases.py lines 1691-1699), cache-miss
computation. -/
noncomputable def Psats_T_ref_value (s : State) : List ℝ :=
  s.VaporPressures.map fun v => v.prop T_REF_IG

/-- `GibbsExcessLiquid.Hvaps_T_ref` (phases.py lines 2027-2035), cache-miss
computation. -/
noncomputable def Hvaps_T_ref_value (s : State) : List ℝ :=
  s.EnthalpyVaporizations.map fun v => v.prop T_REF_IG

/-- `GibbsExcessLiquid.Hvaps` (phases.py lines 1968-1993), cache-miss
computation (the generic branch's `None -> 0.0` replacement is absorbed
into the total-valued collaborator). -/
noncomputable def Hvaps_value (s : State) : List ℝ :=
  if s.Hvap_locked then
    s.Hvap_data.map fun d =>
      if s.T < d.Tc then horner d.coeffs (Real.log (1.0 - s.T * d.Tc_inv))
      else 0.0
  else
    s.EnthalpyVaporizations.map fun v => v.prop s.T

/-- `Phase.Cpig_integrals_pure` (phases.py lines 730-742) on a
`GibbsExcessLiquid` snapshot, cache-miss computation. -/
noncomputable def Cpig_integrals_pure_value (s : State) : List ℝ :=
  if s.Cpgs_locked then Phase._Cp_integrals_pure_fast s.T s.Cpgs_data
  else s.HeatCapacityGases.map fun o => o.integral T_REF_IG s.T

/-- `Phase.Cpig_integrals_over_T_pure` (phases.py lines 744-758),
cache-miss computation. -/
noncomputable def Cpig_integrals_over_T_pure_value (s : State) : List ℝ :=
  if s.Cpgs_locked then Phase._Cp_integrals_over_T_pure_fast s.T s.Cpgs_data
  else s.HeatCapacityGases.map fun o => o.integral_over_T T_REF_IG s.T

/-- `Phase.Cpl_integrals_pure` (phases.py lines 775-795), cache-miss
computation. -/
noncomputable def Cpl_integrals_pure_value (s : State) : List ℝ :=
  if s.Cpls_locked then Phase._Cp_integrals_pure_fast s.T s.Cpls_data
  else s.HeatCapacityLiquids.map fun o => o.integral T_REF_IG s.T

/-- `Phase.Cpl_integrals_over_T_pure` (phases.py lines 797-818), cache-miss
computation. -/
noncomputable def Cpl_integrals_over_T_pure_value (s : State) : List ℝ :=
  if s.Cpls_locked then Phase._Cp_integrals_over_T_pure_fast s.T s.Cpls_data
  else s.HeatCapacityLiquids.map fun o => o.integral_over_T T_REF_IG s.T

/-- `Phase.H_ideal_gas` (phases.py lines 823-832) on a `GibbsExcessLiquid`
snapshot, cache-miss computation: `H = Σ zi * Cpig_integral_i` over
`zip(zs, Cpig_integrals_pure())`. -/
noncomputable def H_ideal_gas_value (s : State) : ℝ :=
  listDot s.zs (Cpig_integrals_pure_value s)

/-- `Phase.S_ideal_gas` (phases.py lines 834-850) on a `GibbsExcessLiquid`
snapshot, cache-miss computation. -/
noncomputable def S_ideal_gas_value (s : State) : ℝ :=
  let CpigT := Cpig_integrals_over_T_pure_value s
  let log_zs := Phase.log_zs s.zs
  (-(R * sumIdx s.N fun i => s.zs.getD i 0 * log_zs.getD i 0) -
    R * Real.log (s.P * P_REF_IG_INV) +
    sumIdx s.N fun i => s.zs.getD i 0 * CpigT.getD i 0)

/-- `GibbsExcessLiquid.Tait_Bs` (phases.py lines 2663-2670), cache-miss
computation. -/
noncomputable def Tait_Bs_value (s : State) : List ℝ :=
  evaluate_linear_fits s.Tait_B_data s.T

/-- `GibbsExcessLiquid.dTait_B_dTs` (phases.py lines 2672-2679). -/
noncomputable def dTait_B_dTs_value (s : State) : List ℝ :=
  evaluate_linear_fits_d s.Tait_B_data s.T

/-- `GibbsExcessLiquid.Tait_Cs` (phases.py lines 2690-2697). -/
noncomputable def Tait_Cs_value (s : State) : List ℝ :=
  evaluate_linear_fits s.Tait_C_data s.T

/-- `GibbsExcessLiquid.dTait_C_dTs` (phases.py lines 2699-2706). -/
noncomputable def dTait_C_dTs_value (s : State) : List ℝ :=
  evaluate_linear_fits_d s.Tait_C_data s.T

/-- `GibbsExcessLiquid.dH_dP_integrals_Tait` (phases.py lines 2727-2800),
cache-miss computation: the `x0 .. x15` common-subexpression form of the
Tait pressure-correction integral, per component. -/
noncomputable def dH_dP_integrals_Tait_value (s : State) : List ℝ :=
  let Psats := Psats_value s
  let Vms_sat := Vms_sat_value s
  let dVms_sat_dT := dVms_sat_dT_value s
  let dPsats_dT := dPsats_dT_value s
  let Tait_Bs := Tait_Bs_value s
  let Tait_Cs := Tait_Cs_value s
  let dTait_C_dTs := dTait_C_dTs_value s
  let dTait_B_dTs := dTait_B_dTs_value s
  (List.range s.N).map fun i =>
    let x0 := Tait_Bs.getD i 0
    let x1 := s.P + x0
    let x2 := Psats.getD i 0
    let x3 := x0 + x2
    let x4 := 1.0 / x3
    let x5 := Tait_Cs.getD i 0
    let x6 := Vms_sat.getD i 0
    let x7 := x5 * x6
    let x8 := s.T * dVms_sat_dT.getD i 0
    let x9 := x5 * x8
    let x10 := s.T * dTait_C_dTs.getD i 0
    let x11 := x0 * x6
    let x12 := s.T * x7
    let x13 := -x0 * x7 + x0 * x9 + x10 * x11 + x12 * dTait_B_dTs.getD i 0
    let x14 := x2 * x6
    let x15 := x4 * (x0 * x8 + x10 * x14 - x11 + x12 * dPsats_dT.getD i 0 +
      x13 - x14 - x2 * x7 + x2 * x8 + x2 * x9)
    (-s.P * x15 + s.P * (x10 * x6 - x7 + x9) * Real.log (x1 * x4) +
      x13 * Real.log x1 - x13 * Real.log x3 + x15 * x2)

/-- `GibbsExcessLiquid.S` (phases.py lines 2423-2531), cache-miss
computation of the local variable `S` (the value the first call returns).
In the `use_IG_Cp = False` branch the call to `dVms_sat_dT_T_ref()` raises
`NameError` on the locked fast path, which propagates out of `S()`. -/
noncomputable def S_compute (s : State) : Except PyErr ℝ :=
  let log_zs := Phase.log_zs s.zs
  let S0 := -(sumIdx s.N fun i => s.zs.getD i 0 * log_zs.getD i 0) * R
  let CpigT := Cpig_integrals_over_T_pure_value s
  let Psats := Psats_value s
  let Vms_sat := Vms_sat_value s
  let dPsats_dT := dPsats_dT_value s
  if s.P_DEPENDENT_H_LIQ then
    let dVms_sat_dT := dVms_sat_dT_value s
    if s.use_IG_Cp then
      .ok (S0 + sumIdx s.N fun i =>
        (CpigT.getD i 0 -
          dPsats_dT.getD i 0 * (R * s.T / Psats.getD i 0 - Vms_sat.getD i 0) -
          R * Real.log (Psats.getD i 0 * P_REF_IG_INV) -
          max 0.0 (s.P - Psats.getD i 0) * dVms_sat_dT.getD i 0) *
          s.zs.getD i 0)
    else
      let Hvaps_T_ref := Hvaps_T_ref_value s
      let Psats_T_ref := Psats_T_ref_value s
      let CplT := Cpl_integrals_over_T_pure_value s
      match dVms_sat_dT_T_ref_value s with
      | .error e => .error e
      | .ok dVms_sat_dT_T_ref =>
        .ok (S0 + sumIdx s.N fun i =>
          (CplT.getD i 0 - Hvaps_T_ref.getD i 0 * T_REF_IG_INV -
            R * Real.log (Psats_T_ref.getD i 0 * P_REF_IG_INV) -
            (s.P - Psats_T_ref.getD i 0) * dVms_sat_dT_T_ref.getD i 0) *
            s.zs.getD i 0)
  else
    let Hvaps := Hvaps_value s
    .ok (S0 + sumIdx s.N fun i =>
      s.zs.getD i 0 * (CpigT.getD i 0 - Hvaps.getD i 0 * (1.0 / s.T) -
        R * Real.log (s.P * P_REF_IG_INV)))

/-- `GibbsExcessLiquid.S` with its memoisation guard: the pair (result,
receiver after the call).  On a cache miss the source stores
`self._S = S + self.GibbsExcessModel.SE()` **but returns the local `S`**,
so the cached value differs from the first returned value by `SE()`. -/
noncomputable def S_call (s : State) : Except PyErr ℝ × State :=
  match s._S with
  | some v => (.ok v, s)
  | none =>
    match S_compute s with
    | .error e => (.error e, s)
    | .ok Sv => (.ok Sv, { s with _S := some (Sv + s.GibbsExcessModel.SE) })

/-- `GibbsExcessLiquid.S_dep` (phases.py lines 2564-2565) on a fresh
snapshot: `return self.S() - self.H_ideal_gas()` — note the source
subtracts `H_ideal_gas`, not `S_ideal_gas`. -/
noncomputable def S_dep_value (s : State) : Except PyErr ℝ :=
  (S_compute s).map fun Sv => Sv - H_ideal_gas_value s

/-- `GibbsExcessLiquid.H` (phases.py lines 2328-2421), cache-miss
computation (here the returned value and the cached value agree:
`self._H = H; return H`). -/
noncomputable def H_compute (s : State) : Except PyErr ℝ :=
  let Cpig_integrals_pure := Cpig_integrals_pure_value s
  let base : Except PyErr ℝ :=
    if s.P_DEPENDENT_H_LIQ then
      if s.use_IG_Cp then
        let Psats := Psats_value s
        let Vms_sat := Vms_sat_value s
        let dVms_sat_dT := dVms_sat_dT_value s
        let dPsats_dT := dPsats_dT_value s
        let H1 := sumIdx s.N fun i =>
          s.zs.getD i 0 * (Cpig_integrals_pure.getD i 0 -
            s.T * (dPsats_dT.getD i 0 *
              (R * s.T / Psats.getD i 0 - Vms_sat.getD i 0)))
        .ok (if s.use_Tait then
            H1 + sumIdx s.N fun i =>
              s.zs.getD i 0 * (dH_dP_integrals_Tait_value s).getD i 0
          else
            H1 + sumIdx s.N fun i =>
              s.zs.getD i 0 * max 0.0 (s.P - Psats.getD i 0) *
                (Vms_sat.getD i 0 - s.T * dVms_sat_dT.getD i 0))
      else
        let Psats := Psats_value s
        let Vms_sat := Vms_sat_value s
        let dVms_sat_dT := dVms_sat_dT_value s
        let dPsats_dT := dPsats_dT_value s
        let Hvaps_T_ref := Hvaps_T_ref_value s
        let Cpl_integrals_pure := Cpl_integrals_pure_value s
        match dVms_sat_dT_T_ref_value s with
        | .error e => .error e
        | .ok dVms_sat_dT_T_ref =>
          let Vms_sat_T_ref := Vms_sat_T_ref_value s
          let Psats_T_ref := Psats_T_ref_value s
          .ok (sumIdx s.N fun i =>
            s.zs.getD i 0 *
                (Cpl_integrals_pure.getD i 0 - Hvaps_T_ref.getD i 0) +
              s.zs.getD i 0 * (s.P - Psats_T_ref.getD i 0) *
                (Vms_sat_T_ref.getD i 0 -
                  T_REF_IG * dVms_sat_dT_T_ref.getD i 0))
    else
      let Hvaps := Hvaps_value s
      .ok (sumIdx s.N fun i =>
        s.zs.getD i 0 * (Cpig_integrals_pure.getD i 0 - Hvaps.getD i 0))
  base.map fun H => H + s.GibbsExcessModel.HE

/-- `GibbsExcessLiquid.to_TP_zs` (phases.py lines 1608-1678): a fresh
snapshot via `__new__` (so with every cache unset), state set to the
arguments, flags, locked tables and collaborator references copied from the
receiver, and the activity model re-evaluated at `(T, zs)` unless both are
unchanged (`T == self.T` and `zs is self.zs`; Python reference identity is
modelled as equality).  The `try: 1/0; new._Psats = self._Psats` block
always raises `ZeroDivisionError` into its bare `except`, so no cache is
ever copied.  The body never assigns to `self`; all states modelled carry
`T`, so the `hasattr(self, 'T')` test is true. -/
noncomputable def to_TP_zs (s : State) (T P : ℝ) (zs : List ℝ) : State :=
  let T_equal := T = s.T
  { T := T, P := P, zs := zs, N := s.N,
    VaporPressures := s.VaporPressures,
    VolumeLiquids := s.VolumeLiquids,
    eos_pure_instances := s.eos_pure_instances,
    HeatCapacityGases := s.HeatCapacityGases,
    EnthalpyVaporizations := s.EnthalpyVaporizations,
    HeatCapacityLiquids := s.HeatCapacityLiquids,
    Psats_locked := s.Psats_locked, Psats_data := s.Psats_data,
    Cpgs_locked := s.Cpgs_locked, Cpgs_data := s.Cpgs_data,
    Cpls_locked := s.Cpls_locked, Cpls_data := s.Cpls_data,
    Vms_sat_locked := s.Vms_sat_locked, Vms_sat_data := s.Vms_sat_data,
    Hvap_data := s.Hvap_data, Hvap_locked := s.Hvap_locked,
    use_phis_sat := s.use_phis_sat, use_Poynting := s.use_Poynting,
    P_DEPENDENT_H_LIQ := s.P_DEPENDENT_H_LIQ, use_IG_Cp := s.use_IG_Cp,
    Hfs := s.Hfs, Gfs := s.Gfs, Sfs := s.Sfs,
    henry_components := s.henry_components,
    has_henry_components := s.has_henry_components,
    use_Tait := s.use_Tait,
    Tait_B_data := s.Tait_B_data, Tait_C_data := s.Tait_C_data,
    GibbsExcessModel :=
      if T_equal ∧ zs = s.zs then s.GibbsExcessModel
      else s.GibbsExcessModelFamily T zs,
    GibbsExcessModelFamily := s.GibbsExcessModelFamily }

/-- The method-call form of `to_TP_zs`: the pair (receiver after the call,
returned snapshot).  The source body only reads `self`. -/
noncomputable def to_TP_zs_m (s : State) (T P : ℝ) (zs : List ℝ) :
    State × State :=
  (s, to_TP_zs s T P zs)

end GibbsExcessLiquid

/-! ### Concrete GibbsExcessLiquid configurations -/

/-- A correlation collaborator whose property, derivative and integrals are
identically zero. -/
def zeroTD : TDependentObj :=
  { prop := fun _ => 0, prop_der := fun _ => 0,
    integral := fun _ _ => 0, integral_over_T := fun _ _ => 0 }

/-- A locked vapor-pressure fit with empty polynomial coefficients: inside
`[100 K, 1000 K]` the fitted `log(Psat)` is `0`, so `Psat = 1 Pa`. -/
def psatFitTriv : LinearFit :=
  { Tmin := 100, Tmin_slope := 0, Tmin_value := 0,
    Tmax := 1000, Tmax_slope := 0, Tmax_value := 0,
    coeffs := [], d_coeffs := [], d2_coeffs := [] }

/-- An ideal-solution activity model state (`HE = SE = CpE = 0`). -/
def gesIdeal : GibbsExcessModelState :=
  { gammas := [1], dgammas_dT := [0], HE := 0, SE := 0, CpE := 0 }

/-- An activity model with a unit excess entropy, `SE() = 1 J/(mol*K)`. -/
def gesSE1 : GibbsExcessModelState :=
  { gammas := [1], dgammas_dT := [0], HE := 0, SE := 1, CpE := 0 }

/-- A single-component `GibbsExcessLiquid` snapshot at `T = 300 K`,
`P = 202650 Pa = 2 atm`, `zs = [1.0]`, in the default consistency mode
(`P_DEPENDENT_H_LIQ = True`, `use_IG_Cp = True`), with a locked trivial
vapor-pressure fit (`Psat = 1 Pa`) and zero-valued generic collaborators
for everything else, around the given activity model. -/
noncomputable def geBase (M : GibbsExcessModelState) : GibbsExcessLiquid.State :=
  { T := 300, P := 202650, zs := [1], N := 1,
    P_DEPENDENT_H_LIQ := true, use_IG_Cp := true, use_Poynting := false,
    use_phis_sat := false, use_Tait := false,
    Psats_locked := true, Cpgs_locked := false, Cpls_locked := false,
    Vms_sat_locked := false, Hvap_locked := false,
    has_henry_components := false,
    Psats_data := [psatFitTriv], Cpgs_data := [], Cpls_data := [],
    Vms_sat_data := [], Hvap_data := [], Tait_B_data := [], Tait_C_data := [],
    VaporPressures := [zeroTD], VolumeLiquids := [zeroTD],
    HeatCapacityGases := [zeroTD], HeatCapacityLiquids := [zeroTD],
    EnthalpyVaporizations := [zeroTD],
    eos_pure_instances := [],
    GibbsExcessModel := M, GibbsExcessModelFamily := fun _ _ => M,
    henry_components := [false],
    Hfs := none, Gfs := none, Sfs := none }

/-- `log_zs` of the unit composition. -/
lemma log_zs_one : Phase.log_zs [(1 : ℝ)] = [0] := by
  rw [log_zs_eq_map]
  norm_num

/-- The locked trivial fit gives `Psats = [1]` at 300 K. -/
lemma Psats_geBase (M : GibbsExcessModelState) :
    GibbsExcessLiquid.Psats_value (geBase M) = [1] := by
  simp only [GibbsExcessLiquid.Psats_value, geBase, psatFitTriv,
    if_pos rfl, List.map_cons, List.map_nil]
  norm_num [horner]

/-- The locked trivial fit gives `dPsats_dT = [0]` at 300 K. -/
lemma dPsats_dT_geBase (M : GibbsExcessModelState) :
    GibbsExcessLiquid.dPsats_dT_value (geBase M) = [0] := by
  rw [GibbsExcessLiquid.dPsats_dT_value, Psats_geBase M]
  simp only [geBase, psatFitTriv, if_pos rfl, List.zip_cons_cons,
    List.zip_nil_right, List.map_cons, List.map_nil]
  norm_num [horner]

/-- The ideal-gas Cp integrals vanish on this configuration. -/
lemma Cpig_geBase (M : GibbsExcessModelState) :
    GibbsExcessLiquid.Cpig_integrals_pure_value (geBase M) = [0] := by
  have hlk : (geBase M).Cpgs_locked = false := rfl
  rw [GibbsExcessLiquid.Cpig_integrals_pure_value]
  simp [hlk]
  rfl

/-- The ideal-gas Cp-over-T integrals vanish on this configuration. -/
lemma CpigT_geBase (M : GibbsExcessModelState) :
    GibbsExcessLiquid.Cpig_integrals_over_T_pure_value (geBase M) = [0] := by
  have hlk : (geBase M).Cpgs_locked = false := rfl
  rw [GibbsExcessLiquid.Cpig_integrals_over_T_pure_value]
  simp [hlk]
  rfl

/-- The saturated liquid volumes vanish on this configuration. -/
lemma Vms_geBase (M : GibbsExcessModelState) :
    GibbsExcessLiquid.Vms_sat_value (geBase M) = [0] := by
  have hlk : (geBase M).Vms_sat_locked = false := rfl
  rw [GibbsExcessLiquid.Vms_sat_value]
  simp [hlk]
  rfl

/-- Their temperature derivatives vanish as well. -/
lemma dVms_geBase (M : GibbsExcessModelState) :
    GibbsExcessLiquid.dVms_sat_dT_value (geBase M) = [0] := by
  have hlk : (geBase M).Vms_sat_locked = false := rfl
  rw [GibbsExcessLiquid.dVms_sat_dT_value]
  simp [hlk]
  rfl

/-- The value the first call of `S()` returns on this configuration:
`R * log(101325)` (the transition from the 1 Pa saturation pressure back to
the reference pressure), independent of the activity model. -/
lemma S_compute_geBase (M : GibbsExcessModelState) :
    GibbsExcessLiquid.S_compute (geBase M) = .ok (R * Real.log 101325) := by
  have hzs : (geBase M).zs = [(1 : ℝ)] := rfl
  have hN : (geBase M).N = 1 := rfl
  have hT : (geBase M).T = 300 := rfl
  have hP : (geBase M).P = 202650 := rfl
  have hPd : (geBase M).P_DEPENDENT_H_LIQ = true := rfl
  have hIG : (geBase M).use_IG_Cp = true := rfl
  rw [GibbsExcessLiquid.S_compute]
  simp only [hzs, hN, hT, hP, hPd, hIG, log_zs_one, Psats_geBase M,
    dPsats_dT_geBase M, CpigT_geBase M, Vms_geBase M, dVms_geBase M,
    if_true, sumIdx, Finset.sum_range_one, List.getD_cons_zero,
    mul_zero, zero_mul, mul_one, Except.ok.injEq]
  rw [P_REF_IG_INV, P_REF_IG]
  rw [show (1 : ℝ) * (1.0 / 101325) = (101325 : ℝ)⁻¹ by norm_num]
  rw [Real.log_inv]
  ring

/-- `H_ideal_gas` vanishes on this configuration (zero heat capacities). -/
lemma H_ideal_gas_geBase (M : GibbsExcessModelState) :
    GibbsExcessLiquid.H_ideal_gas_value (geBase M) = 0 := by
  have hzs : (geBase M).zs = [(1 : ℝ)] := rfl
  rw [GibbsExcessLiquid.H_ideal_gas_value, hzs, Cpig_geBase M]
  simp [listDot]

/-- `S_ideal_gas` on this configuration: `-R*log(P/P_ref) = -R*log 2`. -/
lemma S_ideal_gas_geBase (M : GibbsExcessModelState) :
    GibbsExcessLiquid.S_ideal_gas_value (geBase M) = -(R * Real.log 2) := by
  have hzs : (geBase M).zs = [(1 : ℝ)] := rfl
  have hN : (geBase M).N = 1 := rfl
  have hP : (geBase M).P = 202650 := rfl
  rw [GibbsExcessLiquid.S_ideal_gas_value]
  simp only [hzs, hN, hP, log_zs_one, CpigT_geBase M, sumIdx,
    Finset.sum_range_one, List.getD_cons_zero, mul_zero, one_mul, mul_one]
  rw [P_REF_IG_INV, P_REF_IG]
  rw [show (202650 : ℝ) * (1.0 / 101325) = 2 by norm_num]
  ring

/-- Claim C1 (code bug): on a `GibbsExcessLiquid` snapshot the entropy
departure closure `S() = S_dep() + S_ideal_gas()` fails, because
`S_dep` is defined as `self.S() - self.H_ideal_gas()` (subtracting the
enthalpy rather than the entropy ideal-gas part, unlike the adjacent
`H_dep` and `Cp_dep`): at the concrete snapshot `geBase gesIdeal` the
defect `S_dep() + S_ideal_gas() - S()` equals `-R*log 2 ≠ 0`. -/
theorem claimC1_entropy_departure_closure_fails :
    GibbsExcessLiquid.S_compute (geBase gesIdeal) =
      .ok (R * Real.log 101325) ∧
    GibbsExcessLiquid.S_ideal_gas_value (geBase gesIdeal) =
      -(R * Real.log 2) ∧
    GibbsExcessLiquid.H_ideal_gas_value (geBase gesIdeal) = 0 ∧
    GibbsExcessLiquid.S_dep_value (geBase gesIdeal) =
      .ok (R * Real.log 101325) ∧
    ((GibbsExcessLiquid.S_dep_value (geBase gesIdeal)).map fun x =>
        x + GibbsExcessLiquid.S_ideal_gas_value (geBase gesIdeal)) ≠
      GibbsExcessLiquid.S_compute (geBase gesIdeal) := by
  have hS := S_compute_geBase gesIdeal
  have hSig := S_ideal_gas_geBase gesIdeal
  have hHig := H_ideal_gas_geBase gesIdeal
  have hSdep : GibbsExcessLiquid.S_dep_value (geBase gesIdeal) =
      .ok (R * Real.log 101325) := by
    rw [GibbsExcessLiquid.S_dep_value, hS, hHig]
    simp [Except.map]
  refine ⟨hS, hSig, hHig, hSdep, ?_⟩
  rw [hSdep, hS, hSig]
  simp only [Except.map, ne_eq, Except.ok.injEq]
  have hlog : Real.log 2 ≠ 0 := ne_of_gt (Real.log_pos one_lt_two)
  have hR : R ≠ 0 := by rw [R]; norm_num
  intro h
  have : R * Real.log 2 = 0 := by linarith
  exact (mul_ne_zero hR hlog) this

/-- Claim C2 (code bug): on a snapshot whose activity model has
`SE() = 1`, the first call of `GibbsExcessLiquid.S()` returns
`R*log(101325)` but caches `R*log(101325) + 1` (the source stores
`self._S = S + SE()` yet returns the local `S`), so the second call
returns a different value than the first. -/
theorem claimC2_S_cache_not_idempotent :
    (GibbsExcessLiquid.S_call (geBase gesSE1)).1 =
      .ok (R * Real.log 101325) ∧
    (GibbsExcessLiquid.S_call
        (GibbsExcessLiquid.S_call (geBase gesSE1)).2).1 =
      .ok (R * Real.log 101325 + 1) ∧
    (GibbsExcessLiquid.S_call
        (GibbsExcessLiquid.S_call (geBase gesSE1)).2).1 ≠
      (GibbsExcessLiquid.S_call (geBase gesSE1)).1 := by
  have hnone : (geBase gesSE1)._S = none := rfl
  have hSE : (geBase gesSE1).GibbsExcessModel.SE = 1 := rfl
  have hfirst : GibbsExcessLiquid.S_call (geBase gesSE1) =
      (.ok (R * Real.log 101325),
        { geBase gesSE1 with
            _S := some (R * Real.log 101325 + 1) }) := by
    rw [GibbsExcessLiquid.S_call]
    rw [hnone, S_compute_geBase gesSE1, hSE]
  have hsecond : GibbsExcessLiquid.S_call
      { geBase gesSE1 with _S := some (R * Real.log 101325 + 1) } =
      (.ok (R * Real.log 101325 + 1),
        { geBase gesSE1 with _S := some (R * Real.log 101325 + 1) }) := by
    rw [GibbsExcessLiquid.S_call]
  refine ⟨by rw [hfirst], ?_, ?_⟩
  · rw [hfirst, hsecond]
  · rw [hfirst, hsecond]
    simp only [ne_eq, Except.ok.injEq]
    intro h
    linarith

/-- Claim C10: when the liquid-volume correlations are locked and the cache
is unset, `dVms_sat_dT_T_ref()` fails with the undefined-name error (the
locked branch reads the unbound name `T`), and consequently the
liquid-Cp reference path (`use_IG_Cp = False`) of both `S()` and `H()`
propagates that failure. -/
theorem claimC10_dVms_sat_dT_T_ref_unbound (s : GibbsExcessLiquid.State)
    (hlock : s.Vms_sat_locked = true)
    (hcache : s._dVms_sat_dT_T_ref = none) :
    (GibbsExcessLiquid.dVms_sat_dT_T_ref_call s).1 = .error .nameError ∧
    (s.P_DEPENDENT_H_LIQ = true → s.use_IG_Cp = false →
      GibbsExcessLiquid.S_compute s = .error .nameError ∧
      GibbsExcessLiquid.H_compute s = .error .nameError) := by
  have hval : GibbsExcessLiquid.dVms_sat_dT_T_ref_value s =
      .error .nameError := by
    rw [GibbsExcessLiquid.dVms_sat_dT_T_ref_value, if_pos hlock]
  constructor
  · rw [GibbsExcessLiquid.dVms_sat_dT_T_ref_call, hcache, hval]
  · intro hP hIG
    constructor
    · rw [GibbsExcessLiquid.S_compute]
      simp only [hP, hIG, hval, if_true, Bool.false_eq_true, if_false]
    · rw [GibbsExcessLiquid.H_compute]
      simp only [hP, hIG, hval, if_true, Bool.false_eq_true, if_false,
        Except.map]

/-- The configuration that exercises the C10 failure: locked liquid-volume
fits and the liquid-Cp reference mode. -/
noncomputable def geC10 : GibbsExcessLiquid.State :=
  { geBase gesIdeal with Vms_sat_locked := true, use_IG_Cp := false }

/-- Witness for C10 at the concrete configuration. -/
theorem claimC10_dVms_sat_dT_T_ref_unbound_witness :
    (GibbsExcessLiquid.dVms_sat_dT_T_ref_call geC10).1 =
      .error .nameError ∧
    GibbsExcessLiquid.S_compute geC10 = .error .nameError ∧
    GibbsExcessLiquid.H_compute geC10 = .error .nameError := by
  have h := claimC10_dVms_sat_dT_T_ref_unbound geC10 rfl rfl
  exact ⟨h.1, (h.2 rfl rfl).1, (h.2 rfl rfl).2⟩

/-- Claim C9: `to_TP_zs` does not mutate its receiver (the method body only
reads `self`); the returned snapshot carries the new state, no memoised
value in any cache field, and shares the correlation tables and
collaborator references of the original — for both `EOSGas.to_TP_zs` and
`GibbsExcessLiquid.to_TP_zs`. -/
theorem claimC9_to_TP_zs_isolation (es : EOSGas.State)
    (gs : GibbsExcessLiquid.State) (T P : ℝ) (zs : List ℝ) :
    (EOSGas.to_TP_zs_m es T P zs).1 = es ∧
    (EOSGas.to_TP_zs es T P zs)._H = none ∧
    (EOSGas.to_TP_zs es T P zs)._S = none ∧
    (EOSGas.to_TP_zs es T P zs).T = some T ∧
    (EOSGas.to_TP_zs es T P zs).P = some P ∧
    (EOSGas.to_TP_zs es T P zs).zs = zs ∧
    (EOSGas.to_TP_zs es T P zs).eos_mix = some (es.solveTP T P zs) ∧
    (EOSGas.to_TP_zs es T P zs).Cpgs_locked = es.Cpgs_locked ∧
    (EOSGas.to_TP_zs es T P zs).HeatCapacityGases = es.HeatCapacityGases ∧
    (GibbsExcessLiquid.to_TP_zs_m gs T P zs).1 = gs ∧
    (GibbsExcessLiquid.to_TP_zs gs T P zs)._S = none ∧
    (GibbsExcessLiquid.to_TP_zs gs T P zs)._H = none ∧
    (GibbsExcessLiquid.to_TP_zs gs T P zs)._Cp = none ∧
    (GibbsExcessLiquid.to_TP_zs gs T P zs)._V = none ∧
    (GibbsExcessLiquid.to_TP_zs gs T P zs)._log_zs = none ∧
    (GibbsExcessLiquid.to_TP_zs gs T P zs)._Psats = none ∧
    (GibbsExcessLiquid.to_TP_zs gs T P zs)._dPsats_dT = none ∧
    (GibbsExcessLiquid.to_TP_zs gs T P zs)._Vms_sat = none ∧
    (GibbsExcessLiquid.to_TP_zs gs T P zs)._Vms_sat_dT = none ∧
    (GibbsExcessLiquid.to_TP_zs gs T P zs)._Vms_sat_T_ref = none ∧
    (GibbsExcessLiquid.to_TP_zs gs T P zs)._dVms_sat_dT_T_ref = none ∧
    (GibbsExcessLiquid.to_TP_zs gs T P zs)._Psats_T_ref = none ∧
    (GibbsExcessLiquid.to_TP_zs gs T P zs)._Hvaps = none ∧
    (GibbsExcessLiquid.to_TP_zs gs T P zs)._Hvaps_T_ref = none ∧
    (GibbsExcessLiquid.to_TP_zs gs T P zs)._Cpig_integrals_pure = none ∧
    (GibbsExcessLiquid.to_TP_zs gs T P zs)._Cpig_integrals_over_T_pure =
      none ∧
    (GibbsExcessLiquid.to_TP_zs gs T P zs)._Cpl_integrals_pure = none ∧
    (GibbsExcessLiquid.to_TP_zs gs T P zs)._Cpl_integrals_over_T_pure =
      none ∧
    (GibbsExcessLiquid.to_TP_zs gs T P zs)._Poyntings = none ∧
    (GibbsExcessLiquid.to_TP_zs gs T P zs)._phis = none ∧
    (GibbsExcessLiquid.to_TP_zs gs T P zs)._lnphis = none ∧
    (GibbsExcessLiquid.to_TP_zs gs T P zs).T = T ∧
    (GibbsExcessLiquid.to_TP_zs gs T P zs).P = P ∧
    (GibbsExcessLiquid.to_TP_zs gs T P zs).zs = zs ∧
    (GibbsExcessLiquid.to_TP_zs gs T P zs).Psats_data = gs.Psats_data ∧
    (GibbsExcessLiquid.to_TP_zs gs T P zs).Cpgs_data = gs.Cpgs_data ∧
    (GibbsExcessLiquid.to_TP_zs gs T P zs).Cpls_data = gs.Cpls_data ∧
    (GibbsExcessLiquid.to_TP_zs gs T P zs).Vms_sat_data = gs.Vms_sat_data ∧
    (GibbsExcessLiquid.to_TP_zs gs T P zs).Hvap_data = gs.Hvap_data ∧
    (GibbsExcessLiquid.to_TP_zs gs T P zs).Tait_B_data = gs.Tait_B_data ∧
    (GibbsExcessLiquid.to_TP_zs gs T P zs).Tait_C_data = gs.Tait_C_data ∧
    (GibbsExcessLiquid.to_TP_zs gs T P zs).VaporPressures =
      gs.VaporPressures ∧
    (GibbsExcessLiquid.to_TP_zs gs T P zs).VolumeLiquids =
      gs.VolumeLiquids ∧
    (GibbsExcessLiquid.to_TP_zs gs T P zs).HeatCapacityGases =
      gs.HeatCapacityGases ∧
    (GibbsExcessLiquid.to_TP_zs gs T P zs).HeatCapacityLiquids =
      gs.HeatCapacityLiquids ∧
    (GibbsExcessLiquid.to_TP_zs gs T P zs).EnthalpyVaporizations =
      gs.EnthalpyVaporizations := by
  exact ⟨rfl, rfl, rfl, rfl, rfl, rfl, rfl, rfl, rfl, rfl, rfl, rfl, rfl,
    rfl, rfl, rfl, rfl, rfl, rfl, rfl, rfl, rfl, rfl, rfl, rfl, rfl, rfl,
    rfl, rfl, rfl, rfl, rfl, rfl, rfl, rfl, rfl, rfl, rfl, rfl, rfl, rfl,
    rfl, rfl, rfl, rfl, rfl⟩

end Thermo
